import Mathlib

/-!
Shallow embedding of the turnkey-copilot rule-based analysis engine:
the three evaluators in src/services/config.ts, src/services/policy.ts and
src/services/transaction.ts, and the document classifier inlined in
src/commands/check.ts.

Modelling choices (JavaScript semantics):
- A parsed JSON document is a list of string-keyed fields (`Doc`).  Parsed
  objects have unique keys, so lookup order is irrelevant.
- JSON numbers are modelled as integers; no analyzed rule depends on
  fractional values.
- JS truthiness: null, false, 0 and the empty string are falsy; arrays and
  objects are always truthy.
- Calling a string method (startsWith, includes, forEach, find) on a value of
  the wrong runtime type throws a TypeError in JS, so every evaluator is
  embedded in `Except String`; `.error "TypeError"` marks such a throw.
- Property reads never throw except on null; every `propGet` call site is
  guarded by a truthiness test (which rules out null), matching the source.
- `Date.now()` is modelled by an explicit `now` parameter passed to each
  evaluator; only analyzeTransaction reads it.
-/

set_option linter.unusedVariables false
set_option maxRecDepth 65536

instance {ε α : Type} [DecidableEq ε] [DecidableEq α] : DecidableEq (Except ε α) := fun x y =>
  match x, y with
  | .error a, .error b =>
    if h : a = b then .isTrue (congrArg Except.error h) else .isFalse (fun hh => h (by injection hh))
  | .error a, .ok b => .isFalse (fun hh => Except.noConfusion hh)
  | .ok a, .error b => .isFalse (fun hh => Except.noConfusion hh)
  | .ok a, .ok b =>
    if h : a = b then .isTrue (congrArg Except.ok h) else .isFalse (fun hh => h (by injection hh))

inductive Json where
  | null : Json
  | bool : Bool → Json
  | num : Int → Json
  | str : String → Json
  | arr : List Json → Json
  | obj : List (String × Json) → Json

abbrev Doc := List (String × Json)

structure AnalysisResult where
  issues : List String
  suggestions : List String
deriving DecidableEq

/-- Issue/suggestion pairs: every check in the source pushes an issue and its
suggestion together, so we accumulate them as pairs. -/
abbrev Findings := List (String × String)

def lookupField : Doc → String → Option Json
  | [], _ => none
  | (k, v) :: rest, key => if k = key then some v else lookupField rest key

/-- JS truthiness of a value. -/
def truthy : Json → Bool
  | .null => false
  | .bool b => b
  | .num n => n != 0
  | .str s => s != ""
  | .arr _ => true
  | .obj _ => true

/-- JS truthiness, with `none` standing for an absent field (undefined). -/
def truthyOpt : Option Json → Bool
  | none => false
  | some v => truthy v

def digitsToNat (l : List Char) : Nat :=
  l.foldl (fun a c => a * 10 + (c.toNat - 48)) 0

/-- JS ToNumber on a string, for decimal integer numerals; other numeric
string forms (hex, decimals, exponents, padding) are approximated as NaN
(`none`) — no analyzed rule depends on them. The empty string converts
to 0 in JS. -/
def strToNumber (s : String) : Option Int :=
  if s.data = [] then some 0
  else if s.data.all Char.isDigit then some (digitsToNat s.data)
  else if s.data.head? = some (Char.ofNat 45) ∧ s.data.tail ≠ [] ∧ s.data.tail.all Char.isDigit then
    some (-(digitsToNat s.data.tail : Int))
  else none

/-- JS ToNumber; `none` stands for NaN.  Multi-element arrays and objects are
stringified by JS first and almost always give NaN; we approximate them as
NaN (no analyzed rule applies `<` to such values). -/
def toNumber : Json → Option Int
  | .null => some 0
  | .bool b => some (if b then 1 else 0)
  | .num n => some n
  | .str s => strToNumber s
  | .arr [] => some 0
  | .arr _ => none
  | .obj _ => none

/-- JS `v < n` for an integer literal n: NaN comparisons are false. -/
def jsLtInt (v : Json) (n : Int) : Bool :=
  match toNumber v with
  | some m => decide (m < n)
  | none => false

/-- JS property read on a non-null value (undefined is `none`).  Strings and
arrays expose `length`; other properties of primitives are undefined. -/
def propGet : Json → String → Option Json
  | .obj fs, k => lookupField fs k
  | .str s, k => if k = "length" then some (.num (s.length : Int)) else none
  | .arr xs, k => if k = "length" then some (.num (xs.length : Int)) else none
  | _, _ => none

/-- The value of `v.length` (undefined when absent). -/
def jsLen (v : Json) : Option Json := propGet v "length"

/-- JS `v.length < n`: undefined < n is false. -/
def jsLtLen (v : Json) (n : Int) : Bool :=
  match jsLen v with
  | some w => jsLtInt w n
  | none => false

/-- JS strict equality `v.length === n`: only a number compares equal. -/
def jsLenEq (v : Json) (n : Int) : Bool :=
  match jsLen v with
  | some (.num m) => m == n
  | _ => false

def lenEq0Opt (o : Option Json) : Bool :=
  match o with
  | some v => jsLenEq v 0
  | none => false

/-- JS strict equality of a possibly-undefined value with a string literal. -/
def jsStrEqOpt (o : Option Json) (t : String) : Bool :=
  match o with
  | some (.str s) => s == t
  | _ => false

def jsStrEqVal (v : Json) (t : String) : Bool :=
  match v with
  | .str s => s == t
  | _ => false

def listHasInfix (pat : List Char) : List Char → Bool
  | [] => pat.isEmpty
  | c :: rest => pat.isPrefixOf (c :: rest) || listHasInfix pat rest

/-- JS `s.includes(pat)` for strings: substring containment. -/
def strContains (s pat : String) : Bool := listHasInfix pat.data s.data

/-- JS `s.startsWith(pre)`. -/
def strStartsWith (s pre : String) : Bool := pre.data.isPrefixOf s.data

def strDrop (s : String) (n : Nat) : String := String.mk (s.data.drop n)

/-- JS `v.includes(pat)` result for a string (substring) or an array
(strict-equality membership); meaningless for other receivers, which throw. -/
def jsIncludesB : Json → String → Bool
  | .str s, pat => strContains s pat
  | .arr xs, pat => xs.any (fun e => jsStrEqVal e pat)
  | _, pat => false

/-- JS `v.includes(pat)`: throws TypeError unless v is a string or an array. -/
def jsIncludes (v : Json) (pat : String) : Except String Bool :=
  match v with
  | .str _ => .ok (jsIncludesB v pat)
  | .arr _ => .ok (jsIncludesB v pat)
  | _ => .error "TypeError"

mutual
/-- JS ToString, used by template literals and string concatenation. -/
def jsToString : Json → String
  | .null => "null"
  | .bool b => if b then "true" else "false"
  | .num n => toString n
  | .str s => s
  | .arr xs => jsArrToString xs
  | .obj _ => "[object Object]"

/-- JS Array toString: elements stringified and joined with commas, null
elements becoming empty. -/
def jsArrToString : List Json → String
  | [] => ""
  | [.null] => ""
  | [x] => jsToString x
  | .null :: rest => "," ++ jsArrToString rest
  | x :: rest => jsToString x ++ "," ++ jsArrToString rest
end

def jsToStringOpt : Option Json → String
  | none => "undefined"
  | some v => jsToString v

/-! ## Config evaluator (src/services/config.ts, analyzeConfig) -/

def cfgOrgIssue : String := "Missing organization ID (org_id)"
def cfgOrgSugg : String := "Add your Turnkey organization ID to the configuration:\n```json\n\x7b\n  \"org_id\": \"your-org-id\",\n  ...\n\x7d\n```"
def cfgWalletIssue : String := "Missing wallet ID (wallet_id)"
def cfgWalletSugg : String := "Add your Turnkey wallet ID to the configuration:\n```json\n\x7b\n  \"wallet_id\": \"your-wallet-id\",\n  ...\n\x7d\n```"
def cfgPubIssue : String := "Missing API public key (api_public_key)"
def cfgPubSugg : String := "Add your Turnkey API public key to the configuration:\n```json\n\x7b\n  \"api_public_key\": \"your-api-public-key\",\n  ...\n\x7d\n```"
def cfgPrivMissIssue : String := "Missing API private key (api_private_key)"
def cfgPrivMissSugg : String := "Add your Turnkey API private key to the configuration. For security, consider using environment variables:\n```json\n\x7b\n  \"api_private_key\": \"$\x7bTURNKEY_API_PRIVATE_KEY\x7d\",\n  ...\n\x7d\n```"
def cfgPrivShortIssue : String := "API private key appears to be invalid or too short"
def cfgPrivShortSugg : String := "Ensure your API private key is correctly formatted. For security, consider using environment variables:\n```json\n\x7b\n  \"api_private_key\": \"$\x7bTURNKEY_API_PRIVATE_KEY\x7d\",\n  ...\n\x7d\n```"
def cfgBaseMissIssue : String := "Missing base URL (base_url)"
def cfgBaseMissSugg : String := "Add the Turnkey API base URL to the configuration:\n```json\n\x7b\n  \"base_url\": \"https://api.turnkey.com\",\n  ...\n\x7d\n```"
def cfgBaseHttpsIssue : String := "Base URL should use HTTPS for security"

/-- The HTTPS-upgrade suggestion strips a leading `http://` (the regex
`^http:\/\/`) and rebuilds the URL. -/
def cfgBaseHttpsSugg (s : String) : String :=
  "Update the base URL to use HTTPS:\n```json\n\x7b\n  \"base_url\": \"https://" ++
    ((if strStartsWith s "http://" then strDrop s 7 else s) ++ "\",\n  ...\n\x7d\n```")
def cfg401Issue : String := "API public key format appears invalid (might cause 401 errors)"
def cfg401Sugg : String := "Ensure your API public key starts with \"TK\" and is correctly formatted according to Turnkey documentation"

def cfgOrgPart (config : Doc) : Findings :=
  if truthyOpt (lookupField config "org_id") then [] else [(cfgOrgIssue, cfgOrgSugg)]

def cfgWalletPart (config : Doc) : Findings :=
  if truthyOpt (lookupField config "wallet_id") then [] else [(cfgWalletIssue, cfgWalletSugg)]

def cfgPubKeyPart (config : Doc) : Findings :=
  if truthyOpt (lookupField config "api_public_key") then [] else [(cfgPubIssue, cfgPubSugg)]

/-- Missing api_private_key, else present-but-short check:
`length < 20 && !includes("$")`.  The short-circuit of `&&` means
`includes` (which throws on non-strings) only runs when `.length < 20`
evaluated to true. -/
def cfgPrivKeyPart (config : Doc) : Except String Findings :=
  match lookupField config "api_private_key" with
  | none => .ok [(cfgPrivMissIssue, cfgPrivMissSugg)]
  | some v =>
    if truthy v then
      if jsLtLen v 20 then
        match jsIncludes v "$" with
        | .error e => .error e
        | .ok b => .ok (if b then [] else [(cfgPrivShortIssue, cfgPrivShortSugg)])
      else .ok []
    else .ok [(cfgPrivMissIssue, cfgPrivMissSugg)]

/-- Missing base_url, else `startsWith("https://")` — which throws on a
non-string value. -/
def cfgBaseUrlPart (config : Doc) : Except String Findings :=
  match lookupField config "base_url" with
  | none => .ok [(cfgBaseMissIssue, cfgBaseMissSugg)]
  | some v =>
    if truthy v then
      match v with
      | .str s => .ok (if strStartsWith s "https://" then [] else [(cfgBaseHttpsIssue, cfgBaseHttpsSugg s)])
      | _ => .error "TypeError"
    else .ok [(cfgBaseMissIssue, cfgBaseMissSugg)]

/-- The 401-heuristic: both keys present (truthy) and
`!api_public_key.includes("TK") || api_public_key.length < 10`. -/
def cfgApi401Part (config : Doc) : Except String Findings :=
  match lookupField config "api_public_key", lookupField config "api_private_key" with
  | some pub, some priv =>
    if truthy pub && truthy priv then
      match jsIncludes pub "TK" with
      | .error e => .error e
      | .ok b => .ok (if !b || jsLtLen pub 10 then [(cfg401Issue, cfg401Sugg)] else [])
    else .ok []
  | _, _ => .ok []

/-- analyzeConfig: the five field checks plus the 401 heuristic, in source
order; all checks run (no short-circuiting across checks), a TypeError in an
earlier check aborts the later ones. -/
def analyzeConfig (config : Doc) (now : Nat) : Except String AnalysisResult :=
  match cfgPrivKeyPart config, cfgBaseUrlPart config, cfgApi401Part config with
  | .error e, _, _ => .error e
  | .ok _, .error e, _ => .error e
  | .ok _, .ok _, .error e => .error e
  | .ok p4, .ok p5, .ok p6 =>
    .ok { issues := (cfgOrgPart config ++ cfgWalletPart config ++ cfgPubKeyPart config ++ p4 ++ p5 ++ p6).map Prod.fst,
          suggestions := (cfgOrgPart config ++ cfgWalletPart config ++ cfgPubKeyPart config ++ p4 ++ p5 ++ p6).map Prod.snd }

/-! ## Policy evaluator (src/services/policy.ts) -/

def polApprMissIssue : String := "Missing required_approvals field"
def polApprMissSugg : String := "Add the required_approvals field to specify how many approvals are needed:\n```json\n\x7b\n  \"required_approvals\": 1,\n  ...\n\x7d\n```"
def polApprLowIssue : String := "required_approvals must be at least 1"
def polApprLowSugg : String := "Update required_approvals to be at least 1:\n```json\n\x7b\n  \"required_approvals\": 1,\n  ...\n\x7d\n```"
def polNoKeysIssue : String := "No signing keys defined in the policy"
def polNoKeysSugg : String := "Add at least one signing key to the policy:\n```json\n\x7b\n  \"signing_keys\": [\n    \x7b\n      \"key_id\": \"your-key-id\",\n      \"name\": \"Key Name\",\n      \"public_key\": \"your-public-key\",\n      \"algorithm\": \"ECDSA_SECP256K1\"\n    \x7d\n  ],\n  ...\n\x7d\n```"
def polKeyIdIssue (i : Nat) : String :=
  "Signing key at index " ++ (toString i ++ " is missing key_id")
def polKeyIdSugg (i : Nat) : String :=
  "Add key_id to the signing key at index " ++ (toString i ++ ":\n```json\n\"signing_keys\": [\n  \x7b\n    \"key_id\": \"your-key-id\",\n    ...\n  \x7d\n]\n```")
def polKeyPubIssue (i : Nat) : String :=
  "Signing key at index " ++ (toString i ++ " is missing public_key")
def polKeyPubSugg (i : Nat) : String :=
  "Add public_key to the signing key at index " ++ (toString i ++ ":\n```json\n\"signing_keys\": [\n  \x7b\n    \"public_key\": \"your-public-key\",\n    ...\n  \x7d\n]\n```")
def polNoActIssue : String := "No allowed_activities defined in the policy"
def polNoActSugg : String := "Add allowed_activities to specify what operations are permitted:\n```json\n\x7b\n  \"allowed_activities\": [\n    \x7b\n      \"type\": \"SIGN_WITH_INTENT\",\n      \"resources\": [\"*\"]\n    \x7d\n  ],\n  ...\n\x7d\n```"
def polActTypeIssue (i : Nat) : String :=
  "Allowed activity at index " ++ (toString i ++ " is missing type")
def polActTypeSugg (i : Nat) : String :=
  "Add type to the allowed activity at index " ++ (toString i ++ ":\n```json\n\"allowed_activities\": [\n  \x7b\n    \"type\": \"SIGN_WITH_INTENT\",\n    ...\n  \x7d\n]\n```")
def polActResIssue (i : Nat) : String :=
  "Allowed activity at index " ++ (toString i ++ " has no resources defined")
def polActResSugg (i : Nat) : String :=
  "Add resources to the allowed activity at index " ++ (toString i ++ ":\n```json\n\"allowed_activities\": [\n  \x7b\n    \"resources\": [\"*\"],\n    ...\n  \x7d\n]\n```")
def polCondPlaceholderIssue (i : Nat) : String :=
  "Solana policy condition at index " ++ (toString i ++ " contains placeholder \x27<SENDER_ADDRESS>\x27")
def polCondPlaceholderSugg : String := "Replace \x27<SENDER_ADDRESS>\x27 with an actual Solana address in the condition:\n```json\n\"condition\": \"solana.tx.transfers.all(transfer, transfer.from == \x27actual_solana_address\x27)\"\n```"
def polCondQuantIssue (i : Nat) : String :=
  "Solana policy condition at index " ++ (toString i ++ " might be missing quantifier (all/any)")
def polCondQuantSugg : String := "Consider using \x27all\x27 or \x27any\x27 quantifier in your Solana condition:\n```json\n\"condition\": \"solana.tx.transfers.all(transfer, transfer.from == \x27<ADDRESS>\x27)\"\n```"
def polIntentParamsIssue : String := "SIGN_WITH_INTENT activity is missing parameters"
def polIntentParamsSugg : String := "Add parameters to the SIGN_WITH_INTENT activity:\n```json\n\x7b\n  \"type\": \"SIGN_WITH_INTENT\",\n  \"parameters\": \x7b\n    \"intent_action\": \"eth_signTypedData_v4\",\n    \"intent_version\": \"1\"\n  \x7d,\n  ...\n\x7d\n```"
def polIntentActionIssue : String := "SIGN_WITH_INTENT activity is missing intent_action parameter"
def polIntentActionSugg : String := "Add intent_action parameter to the SIGN_WITH_INTENT activity:\n```json\n\"parameters\": \x7b\n  \"intent_action\": \"eth_signTypedData_v4\",\n  ...\n\x7d\n```"

def simpNameIssue : String := "Missing policyName field"
def simpNameSugg : String := "Add a descriptive policy name:\n```json\n\x7b\n  \"policyName\": \"Your Policy Name\",\n  ...\n\x7d\n```"
def simpEffMissIssue : String := "Missing effect field"
def simpEffMissSugg : String := "Add the effect field (EFFECT_ALLOW or EFFECT_DENY):\n```json\n\x7b\n  \"effect\": \"EFFECT_ALLOW\",\n  ...\n\x7d\n```"
def simpEffInvalidIssue (v : Json) : String := "Invalid effect value: " ++ jsToString v
def simpEffInvalidSugg : String := "Use either \"EFFECT_ALLOW\" or \"EFFECT_DENY\" for the effect field"
def simpCondMissIssue : String := "Missing condition field"
def simpCondMissSugg : String := "Add a condition expression:\n```json\n\x7b\n  \"condition\": \"your.condition.expression\",\n  ...\n\x7d\n```"
def simpCondPlaceholderIssue : String := "Condition contains placeholder <SENDER_ADDRESS>"
def simpCondPlaceholderSugg : String := "Replace <SENDER_ADDRESS> with an actual blockchain address"
def simpCondQuantIssue : String := "Solana condition might be missing quantifier (all/any)"
def simpCondQuantSugg : String := "Consider using \"all\" or \"any\" quantifier in your Solana condition:\n```json\n\x7b\n  \"condition\": \"solana.tx.transfers.all(transfer, transfer.from == \x27your_address\x27)\",\n  ...\n\x7d\n```"

/-- The zero-issue informational suggestion of the simplified-policy path;
`effect` and `condition` are interpolated (string concatenation applies JS
ToString to the condition value). -/
def simpInfoSugg (policy : Doc) : String :=
  "Your policy looks valid! Here\x27s how to use it with Turnkey:\n\n1. This policy will " ++
    ((if jsStrEqOpt (lookupField policy "effect") "EFFECT_ALLOW" then "allow" else "deny") ++
      (" transactions that match the condition:\n   `" ++
        (jsToStringOpt (lookupField policy "condition") ++
          "`\n\n2. For Solana conditions, make sure to replace any placeholders with actual addresses\n\n3. You can apply this policy to your Turnkey organization or specific wallets")))

/-- The simplified shape test: `"policyName" in policy && "effect" in policy
&& "condition" in policy` — key presence, not truthiness. -/
def isSimplifiedShape (policy : Doc) : Bool :=
  (lookupField policy "policyName").isSome && (lookupField policy "effect").isSome &&
    (lookupField policy "condition").isSome

/-- Check `required_approvals === undefined`, else `required_approvals < 1`
(mutually exclusive branches). -/
def polApprovalsPart (policy : Doc) : Findings :=
  match lookupField policy "required_approvals" with
  | none => [(polApprMissIssue, polApprMissSugg)]
  | some v => if jsLtInt v 1 then [(polApprLowIssue, polApprLowSugg)] else []

/-- Per-entry checks of `signing_keys.forEach`: a null entry makes the
property read throw; otherwise missing key_id and missing public_key are
flagged independently. -/
def polKeyEntry (i : Nat) (k : Json) : Except String Findings :=
  match k with
  | .null => .error "TypeError"
  | _ =>
    .ok ((if truthyOpt (propGet k "key_id") then [] else [(polKeyIdIssue i, polKeyIdSugg i)]) ++
      (if truthyOpt (propGet k "public_key") then [] else [(polKeyPubIssue i, polKeyPubSugg i)]))

def polKeysLoop : List Json → Nat → Except String Findings
  | [], _ => .ok []
  | k :: rest, i =>
    match polKeyEntry i k with
    | .error e => .error e
    | .ok f =>
      match polKeysLoop rest (i + 1) with
      | .error e => .error e
      | .ok r => .ok (f ++ r)

/-- Check `!signing_keys || signing_keys.length === 0` → one issue; otherwise
`signing_keys.forEach(...)`, which throws on a non-array. -/
def polKeysPart (policy : Doc) : Except String Findings :=
  match lookupField policy "signing_keys" with
  | none => .ok [(polNoKeysIssue, polNoKeysSugg)]
  | some v =>
    if !truthy v || jsLenEq v 0 then .ok [(polNoKeysIssue, polNoKeysSugg)]
    else
      match v with
      | .arr xs => polKeysLoop xs 0
      | _ => .error "TypeError"

/-- The two Solana-condition checks on `activity.parameters.condition`:
`includes` throws unless the condition value is a string or an array. -/
def polCondChecks (c : Json) (i : Nat) : Except String Findings :=
  match c with
  | .str _ | .arr _ =>
    .ok ((if jsIncludesB c "<SENDER_ADDRESS>" then [(polCondPlaceholderIssue i, polCondPlaceholderSugg)] else []) ++
      (if jsIncludesB c "solana.tx.transfers" && (!jsIncludesB c ".all(" && !jsIncludesB c ".any(") then
        [(polCondQuantIssue i, polCondQuantSugg)] else []))
  | _ => .error "TypeError"

def polActTypeCheck (i : Nat) (a : Json) : Findings :=
  if truthyOpt (propGet a "type") then [] else [(polActTypeIssue i, polActTypeSugg i)]

def polActResCheck (i : Nat) (a : Json) : Findings :=
  if !truthyOpt (propGet a "resources") || lenEq0Opt (propGet a "resources") then
    [(polActResIssue i, polActResSugg i)] else []

/-- Per-entry checks of `allowed_activities.forEach`: missing type, missing
or empty resources, and — when `parameters.condition` is truthy — the Solana
condition checks. -/
def polActEntry (i : Nat) (a : Json) : Except String Findings :=
  match a with
  | .null => .error "TypeError"
  | _ =>
    match propGet a "parameters" with
    | none => .ok (polActTypeCheck i a ++ polActResCheck i a)
    | some p =>
      if truthy p then
        match propGet p "condition" with
        | none => .ok (polActTypeCheck i a ++ polActResCheck i a)
        | some c =>
          if truthy c then
            match polCondChecks c i with
            | .error e => .error e
            | .ok f3 => .ok (polActTypeCheck i a ++ polActResCheck i a ++ f3)
          else .ok (polActTypeCheck i a ++ polActResCheck i a)
      else .ok (polActTypeCheck i a ++ polActResCheck i a)

def polActsLoop : List Json → Nat → Except String Findings
  | [], _ => .ok []
  | a :: rest, i =>
    match polActEntry i a with
    | .error e => .error e
    | .ok f =>
      match polActsLoop rest (i + 1) with
      | .error e => .error e
      | .ok r => .ok (f ++ r)

/-- Check `!allowed_activities || allowed_activities.length === 0` → one issue;
otherwise `allowed_activities.forEach(...)`, which throws on a non-array. -/
def polActsPart (policy : Doc) : Except String Findings :=
  match lookupField policy "allowed_activities" with
  | none => .ok [(polNoActIssue, polNoActSugg)]
  | some v =>
    if !truthy v || jsLenEq v 0 then .ok [(polNoActIssue, polNoActSugg)]
    else
      match v with
      | .arr xs => polActsLoop xs 0
      | _ => .error "TypeError"

/-- The predicate of `allowed_activities?.find`: reading `.type` throws on a
null entry. -/
def polFindLoop : List Json → Except String (Option Json)
  | [] => .ok none
  | a :: rest =>
    match a with
    | .null => .error "TypeError"
    | _ =>
      if jsStrEqOpt (propGet a "type") "SIGN_WITH_INTENT" ||
          jsStrEqOpt (propGet a "type") "SIGN_TRANSACTION" then .ok (some a)
      else polFindLoop rest

/-- JS `allowed_activities?.find(...)`: optional chaining short-circuits only on
undefined and null; any other non-array receiver throws. -/
def polFindIntent (o : Option Json) : Except String (Option Json) :=
  match o with
  | none => .ok none
  | some .null => .ok none
  | some (.arr xs) => polFindLoop xs
  | some _ => .error "TypeError"

/-- The SIGN_WITH_INTENT check: re-find the first entry whose type is
SIGN_WITH_INTENT or SIGN_TRANSACTION; when its type is exactly
SIGN_WITH_INTENT, falsy `parameters` is one issue, else falsy
`parameters.intent_action` is another. -/
def polIntentPart (policy : Doc) : Except String Findings :=
  match polFindIntent (lookupField policy "allowed_activities") with
  | .error e => .error e
  | .ok none => .ok []
  | .ok (some sw) =>
    if truthy sw then
      if jsStrEqOpt (propGet sw "type") "SIGN_WITH_INTENT" then
        match propGet sw "parameters" with
        | none => .ok [(polIntentParamsIssue, polIntentParamsSugg)]
        | some p =>
          if truthy p then
            if truthyOpt (propGet p "intent_action") then .ok []
            else .ok [(polIntentActionIssue, polIntentActionSugg)]
          else .ok [(polIntentParamsIssue, polIntentParamsSugg)]
      else .ok []
    else .ok []

def simpNamePart (policy : Doc) : Findings :=
  if truthyOpt (lookupField policy "policyName") then [] else [(simpNameIssue, simpNameSugg)]

/-- Falsy effect → missing; else not one of the two enum values → invalid
(mutually exclusive). -/
def simpEffectPart (policy : Doc) : Findings :=
  match lookupField policy "effect" with
  | none => [(simpEffMissIssue, simpEffMissSugg)]
  | some v =>
    if truthy v then
      if !jsStrEqVal v "EFFECT_ALLOW" && !jsStrEqVal v "EFFECT_DENY" then
        [(simpEffInvalidIssue v, simpEffInvalidSugg)]
      else []
    else [(simpEffMissIssue, simpEffMissSugg)]

/-- Falsy condition → missing; else the placeholder and quantifier checks
(`includes` throws unless the value is a string or an array). -/
def simpCondPart (policy : Doc) : Except String Findings :=
  match lookupField policy "condition" with
  | none => .ok [(simpCondMissIssue, simpCondMissSugg)]
  | some c =>
    if truthy c then
      match c with
      | .str _ | .arr _ =>
        .ok ((if jsIncludesB c "<SENDER_ADDRESS>" then [(simpCondPlaceholderIssue, simpCondPlaceholderSugg)] else []) ++
          (if jsIncludesB c "solana.tx.transfers" && (!jsIncludesB c ".all(" && !jsIncludesB c ".any(") then
            [(simpCondQuantIssue, simpCondQuantSugg)] else []))
      | _ => .error "TypeError"
    else .ok [(simpCondMissIssue, simpCondMissSugg)]

/-- analyzeSimplifiedPolicy: the three field checks in source order, plus the
informational suggestion when no issue was found. -/
def analyzeSimplifiedPolicy (policy : Doc) : Except String AnalysisResult :=
  match simpCondPart policy with
  | .error e => .error e
  | .ok p3 =>
    .ok { issues := (simpNamePart policy ++ simpEffectPart policy ++ p3).map Prod.fst,
          suggestions := (simpNamePart policy ++ simpEffectPart policy ++ p3).map Prod.snd ++
            (if (simpNamePart policy ++ simpEffectPart policy ++ p3).isEmpty then [simpInfoSugg policy] else []) }

/-- analyzePolicy: the simplified shape is dispatched first; otherwise the
structured checks run in source order (approvals, signing keys, activities,
SIGN_WITH_INTENT). -/
def analyzePolicy (policy : Doc) (now : Nat) : Except String AnalysisResult :=
  if isSimplifiedShape policy then analyzeSimplifiedPolicy policy
  else
    match polKeysPart policy, polActsPart policy, polIntentPart policy with
    | .error e, _, _ => .error e
    | .ok _, .error e, _ => .error e
    | .ok _, .ok _, .error e => .error e
    | .ok p2, .ok p3, .ok p4 =>
      .ok { issues := (polApprovalsPart policy ++ p2 ++ p3 ++ p4).map Prod.fst,
            suggestions := (polApprovalsPart policy ++ p2 ++ p3 ++ p4).map Prod.snd }

/-! ## Transaction evaluator (src/services/transaction.ts, analyzeTransaction) -/

def txOrgIssue : String := "Missing organizationId field"
def txOrgSugg : String := "Add your Turnkey organization ID to the request:\n```json\n\x7b\n  \"organizationId\": \"your-org-id\",\n  ...\n\x7d\n```"
def txTypeMissIssue : String := "Missing type field"
def txTypeMissSugg : String := "Add the activity type to the request:\n```json\n\x7b\n  \"type\": \"ACTIVITY_TYPE_SIGN_TRANSACTION_V2\",\n  ...\n\x7d\n```"
def txTypeUnsIssue (v : Json) : String := "Unsupported transaction type: " ++ jsToString v
def txTypeUnsSugg : String := "Use \"ACTIVITY_TYPE_SIGN_TRANSACTION_V2\" for the type field:\n```json\n\x7b\n  \"type\": \"ACTIVITY_TYPE_SIGN_TRANSACTION_V2\",\n  ...\n\x7d\n```"
def txTsIssue : String := "Missing timestampMs field"

/-- The timestamp suggestion embeds `Date.now().toString()`. -/
def txTsSugg (now : Nat) : String :=
  "Add a current timestamp in milliseconds:\n```json\n\x7b\n  \"timestampMs\": \"" ++
    (toString now ++ "\",\n  ...\n\x7d\n```")
def txParamsIssue : String := "Missing parameters object"
def txParamsSugg : String := "Add the parameters object with transaction details:\n```json\n\x7b\n  \"parameters\": \x7b\n    \"type\": \"TRANSACTION_TYPE_ETHEREUM\",\n    \"signWith\": \"your-ethereum-address\",\n    \"unsignedTransaction\": \"your-unsigned-transaction-hex\"\n  \x7d,\n  ...\n\x7d\n```"
def txPTypeMissIssue : String := "Missing transaction type in parameters"
def txPTypeMissSugg : String := "Add the transaction type to parameters:\n```json\n\"parameters\": \x7b\n  \"type\": \"TRANSACTION_TYPE_ETHEREUM\",\n  ...\n\x7d\n```"
def txPTypeUnsIssue (v : Json) : String := "Unsupported blockchain type: " ++ jsToString v
def txPTypeUnsSugg : String := "Use one of the supported blockchain types: TRANSACTION_TYPE_ETHEREUM, TRANSACTION_TYPE_SOLANA, TRANSACTION_TYPE_BITCOIN"
def txSignWithIssue : String := "Missing signWith address in parameters"
def txSignWithSugg : String := "Add the address to sign with:\n```json\n\"parameters\": \x7b\n  \"signWith\": \"your-blockchain-address\",\n  ...\n\x7d\n```"
def txEthAddrIssue : String := "Invalid Ethereum address format"
def txEthAddrSugg : String := "Ethereum addresses should start with \"0x\" and be 42 characters long"
def txUnsTxMissIssue : String := "Missing unsignedTransaction in parameters"
def txUnsTxMissSugg : String := "Add the unsigned transaction hex:\n```json\n\"parameters\": \x7b\n  \"unsignedTransaction\": \"your-unsigned-transaction-hex\",\n  ...\n\x7d\n```"
def txHexIssue : String := "Invalid transaction hex format"
def txHexSugg : String := "Transaction hex should contain only hexadecimal characters, optionally starting with \"0x\""
def txNextStepsSugg : String := "Your transaction signing request looks valid! Here\x27s how to use it with Turnkey:\n\n1. Use the Turnkey API to submit this request:\n```bash\nturnkey request \x2d\x2dpath /public/v1/submit/sign_transaction \x2d\x2dbody \x27<your-json-content>\x27 \x2d\x2dkey-name your-key-name\n```\n\n2. From the response, extract the \"signedTransaction\" value:\n```json\n\x7b\n  \"activity\": \x7b\n    \"result\": \x7b\n      \"signTransactionResult\": \x7b\n        \"signedTransaction\": \"0x...\" // This is what you need\n      \x7d\n    \x7d\n  \x7d\n\x7d\n```\n\n3. Broadcast the signed transaction to the blockchain network using etherscan:\nhttps://etherscan.io/tx/0x...\n\n4. Track your transaction on a blockchain explorer like Etherscan"

/-- The regex tests `/^0x[0-9a-f]+$/i` and `/^[0-9a-f]+$/i` ; the `i` flag
extends both the digits and the `0x` prefix to upper case. -/
def isHexChar (c : Char) : Bool :=
  c.isDigit || (Char.ofNat 97 ≤ c && c ≤ Char.ofNat 102) || (Char.ofNat 65 ≤ c && c ≤ Char.ofNat 70)

def hexWith0x (s : String) : Bool :=
  (strStartsWith s "0x" || strStartsWith s "0X") &&
    (s.data.drop 2 ≠ [] : Bool) && (s.data.drop 2).all isHexChar

def hexPlain (s : String) : Bool :=
  (s.data ≠ [] : Bool) && s.data.all isHexChar

def txOrgPart (transaction : Doc) : Findings :=
  if truthyOpt (lookupField transaction "organizationId") then [] else [(txOrgIssue, txOrgSugg)]

/-- Falsy type → missing; else not the sentinel activity type → unsupported
(mutually exclusive). -/
def txTypePart (transaction : Doc) : Findings :=
  match lookupField transaction "type" with
  | none => [(txTypeMissIssue, txTypeMissSugg)]
  | some v =>
    if truthy v then
      if !jsStrEqVal v "ACTIVITY_TYPE_SIGN_TRANSACTION_V2" then [(txTypeUnsIssue v, txTypeUnsSugg)]
      else []
    else [(txTypeMissIssue, txTypeMissSugg)]

def txTsPart (transaction : Doc) (now : Nat) : Findings :=
  if truthyOpt (lookupField transaction "timestampMs") then [] else [(txTsIssue, txTsSugg now)]

/-- The `parameters.type` checks: missing, else not one of the three supported
blockchain enum values. -/
def txPTypePart (p : Json) : Findings :=
  match propGet p "type" with
  | none => [(txPTypeMissIssue, txPTypeMissSugg)]
  | some v =>
    if truthy v then
      if !(jsStrEqVal v "TRANSACTION_TYPE_ETHEREUM" || jsStrEqVal v "TRANSACTION_TYPE_SOLANA" ||
          jsStrEqVal v "TRANSACTION_TYPE_BITCOIN") then [(txPTypeUnsIssue v, txPTypeUnsSugg)]
      else []
    else [(txPTypeMissIssue, txPTypeMissSugg)]

/-- The `parameters.signWith` checks: missing, else for the Ethereum type the
address-shape test `signWith.startsWith("0x") ... signWith.length !== 42`,
whose `startsWith` call throws on a non-string. -/
def txSignWithPart (p : Json) : Except String Findings :=
  match propGet p "signWith" with
  | none => .ok [(txSignWithIssue, txSignWithSugg)]
  | some sw =>
    if truthy sw then
      if jsStrEqOpt (propGet p "type") "TRANSACTION_TYPE_ETHEREUM" then
        match sw with
        | .str s =>
          .ok (if !strStartsWith s "0x" || s.length != 42 then [(txEthAddrIssue, txEthAddrSugg)] else [])
        | _ => .error "TypeError"
      else .ok []
    else .ok [(txSignWithIssue, txSignWithSugg)]

/-- The `parameters.unsignedTransaction` checks: missing, else the hex regex
tests (RegExp.test stringifies its argument, so this never throws). -/
def txUnsignedPart (p : Json) : Findings :=
  match propGet p "unsignedTransaction" with
  | none => [(txUnsTxMissIssue, txUnsTxMissSugg)]
  | some ut =>
    if truthy ut then
      if !hexWith0x (jsToString ut) && !hexPlain (jsToString ut) then [(txHexIssue, txHexSugg)]
      else []
    else [(txUnsTxMissIssue, txUnsTxMissSugg)]

/-- Falsy `parameters` → a single issue and the sub-field checks are skipped;
otherwise type, signWith and unsignedTransaction checks in source order. -/
def txParamsPart (transaction : Doc) : Except String Findings :=
  match lookupField transaction "parameters" with
  | none => .ok [(txParamsIssue, txParamsSugg)]
  | some p =>
    if truthy p then
      match txSignWithPart p with
      | .error e => .error e
      | .ok f2 => .ok (txPTypePart p ++ f2 ++ txUnsignedPart p)
    else .ok [(txParamsIssue, txParamsSugg)]

/-- analyzeTransaction: the four field checks in source order, plus the
next-steps suggestion when no issue was found. -/
def analyzeTransaction (transaction : Doc) (now : Nat) : Except String AnalysisResult :=
  match txParamsPart transaction with
  | .error e => .error e
  | .ok p4 =>
    .ok { issues := (txOrgPart transaction ++ txTypePart transaction ++ txTsPart transaction now ++ p4).map Prod.fst,
          suggestions := (txOrgPart transaction ++ txTypePart transaction ++ txTsPart transaction now ++ p4).map Prod.snd ++
            (if (txOrgPart transaction ++ txTypePart transaction ++ txTsPart transaction now ++ p4).isEmpty then
              [txNextStepsSugg] else []) }

/-! ## Classifier and pipeline (src/commands/check.ts, checkConfig) -/

inductive FileType where
  | transaction : FileType
  | policy : FileType
  | config : FileType
deriving DecidableEq

/-- The classifier inlined in checkConfig: first-match-wins over the three
document kinds. -/
def classify (data : Doc) : FileType :=
  if (lookupField data "type").isSome &&
      jsStrEqOpt (lookupField data "type") "ACTIVITY_TYPE_SIGN_TRANSACTION_V2" then .transaction
  else if (lookupField data "required_approvals").isSome ||
      (lookupField data "signing_keys").isSome ||
      ((lookupField data "policyName").isSome && (lookupField data "effect").isSome &&
        (lookupField data "condition").isSome) then .policy
  else .config

/-- The analysis pipeline of checkConfig after parsing: classify, then run
the matching evaluator. -/
def runCheck (data : Doc) (now : Nat) : Except String AnalysisResult :=
  match classify data with
  | .transaction => analyzeTransaction data now
  | .policy => analyzePolicy data now
  | .config => analyzeConfig data now

/-- The issue list of a completed run (a thrown evaluator reports nothing). -/
def okIssues (e : Except String AnalysisResult) : List String :=
  match e with
  | .ok r => r.issues
  | .error _ => []

/-- The suggestion list of a completed run. -/
def okSuggs (e : Except String AnalysisResult) : List String :=
  match e with
  | .ok r => r.suggestions
  | .error _ => []

/-! ## Classifier as the specification words it (for the refinement claim) -/

/-- Whether a possibly-absent value is exactly the string c. -/
def optIsStrVal (o : Option Json) (c : String) : Bool :=
  match o with
  | some (.str s) => s == c
  | _ => false

instance (o : Option Json) (c : String) : Decidable (o = some (Json.str c)) :=
  decidable_of_iff (optIsStrVal o c = true) (by
    cases o with
    | none => simp [optIsStrVal]
    | some v => cases v <;> simp [optIsStrVal])

/-- Modelled from the spec words of §4.1: `transaction` for a `type` field
equal to the sentinel string; else `policy` for any of `required_approvals`,
`signing_keys`, or the triple policyName/effect/condition all present; else
`config`. -/
def classifySpec (data : Doc) : FileType :=
  if lookupField data "type" = some (Json.str "ACTIVITY_TYPE_SIGN_TRANSACTION_V2") then .transaction
  else if (lookupField data "required_approvals").isSome ∨
      (lookupField data "signing_keys").isSome ∨
      ((lookupField data "policyName").isSome ∧ (lookupField data "effect").isSome ∧
        (lookupField data "condition").isSome) then .policy
  else .config

/-! ## Well-typedness (the declared TypeScript interfaces of src/types):
sufficient conditions under which no JS method call can throw. -/

/-- The field, when present, holds a string. -/
def strOrAbsent (o : Option Json) : Prop := ∀ v, o = some v → ∃ s, v = Json.str s

/-- api_private_key, base_url and api_public_key are declared `string` in
TurnkeyConfig. -/
def configWellTyped (c : Doc) : Prop :=
  strOrAbsent (lookupField c "api_private_key") ∧ strOrAbsent (lookupField c "base_url") ∧
    strOrAbsent (lookupField c "api_public_key")

/-- A condition value, when truthy, is a string (or an array, on which
`includes` is also total). -/
def condValWT (o : Option Json) : Prop :=
  ∀ v, o = some v → truthy v = true → (∃ s, v = Json.str s) ∨ (∃ xs, v = Json.arr xs)

/-- signing_keys, when truthy, is an array of objects (SigningKey). -/
def keysFieldWT (o : Option Json) : Prop :=
  ∀ v, o = some v → truthy v = true →
    ∃ xs, v = Json.arr xs ∧ ∀ k ∈ xs, ∃ fs, k = Json.obj fs

/-- An AllowedActivity entry: an object whose truthy `parameters.condition`
is a string or an array. -/
def activityWT (a : Json) : Prop :=
  (∃ fs, a = Json.obj fs) ∧
    ∀ p, propGet a "parameters" = some p → truthy p = true → condValWT (propGet p "condition")

/-- allowed_activities, when present, is null or an array of well-typed
activity entries (`?.find` tolerates null but throws on other non-arrays). -/
def activitiesFieldWT (o : Option Json) : Prop :=
  ∀ v, o = some v → v = Json.null ∨ ∃ xs, v = Json.arr xs ∧ ∀ a ∈ xs, activityWT a

def policyWellTyped (p : Doc) : Prop :=
  keysFieldWT (lookupField p "signing_keys") ∧
    activitiesFieldWT (lookupField p "allowed_activities") ∧
    condValWT (lookupField p "condition")

/-- parameters.signWith, when truthy, is a string (declared `string` in
TurnkeyTransactionRequest). -/
def transactionWellTyped (t : Doc) : Prop :=
  ∀ p, lookupField t "parameters" = some p → truthy p = true →
    ∀ sw, propGet p "signWith" = some sw → truthy sw = true → ∃ s, sw = Json.str s

/-- An issue of the shape `Unsupported transaction type: ...` (the one the
pipeline can never produce). -/
def unsupportedTxTypeIssue (s : String) : Prop :=
  ∃ t, s = "Unsupported transaction type: " ++ t

/-! ## Concrete documents used by witnesses and counterexamples -/

/-- A fully valid config document. -/
def validConfigDoc : Doc :=
  [("org_id", Json.str "o"), ("wallet_id", Json.str "w"),
   ("api_public_key", Json.str "TK12345678"),
   ("api_private_key", Json.str "12345678901234567890"),
   ("base_url", Json.str "https://api.turnkey.com")]

/-- A config whose base_url is a number: `base_url.startsWith` throws. -/
def badBaseUrlDoc : Doc := [("base_url", Json.num 123)]

/-- A simplified policy with an empty effect string. -/
def emptyEffectDoc : Doc :=
  [("policyName", Json.str "n"), ("effect", Json.str ""), ("condition", Json.str "x == y")]

/-- A structured policy with required_approvals = 0 and otherwise valid
fields. -/
def zeroApprovalsDoc : Doc :=
  [("required_approvals", Json.num 0),
   ("signing_keys", Json.arr [Json.obj [("key_id", Json.str "k"), ("public_key", Json.str "p")]]),
   ("allowed_activities", Json.arr [Json.obj [("type", Json.str "SIGN_WITH_INTENT"),
     ("resources", Json.arr [Json.str "*"]),
     ("parameters", Json.obj [("intent_action", Json.str "a")])]])]

/-- A config with org_id present but empty and every other field valid. -/
def emptyOrgDoc : Doc :=
  [("org_id", Json.str ""), ("wallet_id", Json.str "w"),
   ("api_public_key", Json.str "TK12345678"),
   ("api_private_key", Json.str "12345678901234567890"),
   ("base_url", Json.str "https://api.turnkey.com")]

/-- A simplified policy (all three keys present) that is also structurally
broken: no approvals, keys or activities. -/
def simplifiedOnlyDoc : Doc :=
  [("policyName", Json.str "n"), ("effect", Json.str "EFFECT_ALLOW"),
   ("condition", Json.str "x == y")]

/-- A well-formed SIGN_WITH_INTENT activity entry. -/
def laterIntentFirst : Json :=
  Json.obj [("type", Json.str "SIGN_WITH_INTENT"), ("resources", Json.arr [Json.str "*"]),
    ("parameters", Json.obj [("intent_action", Json.str "a")])]

/-- A SIGN_WITH_INTENT activity entry lacking parameters. -/
def laterIntentSecond : Json :=
  Json.obj [("type", Json.str "SIGN_WITH_INTENT"), ("resources", Json.arr [Json.str "*"])]

def laterIntentActs : List Json := [laterIntentFirst, laterIntentSecond]

/-- A structured policy whose first matching activity is a well-formed
SIGN_WITH_INTENT entry while a later SIGN_WITH_INTENT entry lacks
parameters. -/
def laterIntentDoc : Doc :=
  [("required_approvals", Json.num 1),
   ("signing_keys", Json.arr [Json.obj [("key_id", Json.str "k"), ("public_key", Json.str "p")]]),
   ("allowed_activities", Json.arr laterIntentActs)]

/-- A transaction document with the sentinel type and no parameters. -/
def noParamsTxDoc : Doc :=
  [("organizationId", Json.str "org"), ("type", Json.str "ACTIVITY_TYPE_SIGN_TRANSACTION_V2"),
   ("timestampMs", Json.str "1")]

/-!
# Theorems
-/

/-! ## String helper lemmas -/

theorem strData_append (a b : String) : (a ++ b).data = a.data ++ b.data := rfl

theorem strEq_of_data (s t : String) (h : s.data = t.data) : s = t := by
  cases s
  cases t
  exact congrArg String.mk h

/-- A constant string differs from `pre ++ r` whenever `pre` is not a prefix
of it. -/
theorem ne_of_unshared_head {c pre : String} (h : pre.data.isPrefixOf c.data = false) :
    ∀ r, c ≠ pre ++ r := by
  intro r he
  have hd : c.data = pre.data ++ r.data := by rw [he]; rfl
  have hpre : pre.data <+: c.data := ⟨r.data, hd.symm⟩
  have h2 : pre.data.isPrefixOf c.data = true := List.isPrefixOf_iff_prefix.mpr hpre
  rw [h] at h2
  exact Bool.noConfusion h2

/-- Two templated strings with mutually non-prefix constant prefixes are
always different. -/
theorem ne_append_of_unshared_head {a b : String} (hab : a.data.isPrefixOf b.data = false)
    (hba : b.data.isPrefixOf a.data = false) : ∀ r r', a ++ r ≠ b ++ r' := by
  intro r r' he
  have hd : a.data ++ r.data = b.data ++ r'.data := by
    have := congrArg String.data he
    simpa [strData_append] using this
  rcases List.append_eq_append_iff.mp hd with ⟨m, hm, _⟩ | ⟨m, hm, _⟩
  · have : a.data <+: b.data := ⟨m, hm.symm⟩
    rw [← List.isPrefixOf_iff_prefix] at this
    simp [hab] at this
  · have : b.data <+: a.data := ⟨m, hm.symm⟩
    rw [← List.isPrefixOf_iff_prefix] at this
    simp [hba] at this

/-- A nonempty string (length bounded below) is truthy. -/
theorem truthy_str_of_len (n : Nat) {s : String} (h : n + 1 ≤ s.length) :
    truthy (Json.str s) = true := by
  simp only [truthy, bne_iff_ne, ne_eq]
  intro he
  subst he
  simp [String.length] at h

/-- A string with a nonempty prefix is truthy. -/
theorem truthy_str_of_startsWith {s pre : String} (hpre : pre.data ≠ [])
    (h : strStartsWith s pre = true) : truthy (Json.str s) = true := by
  simp only [truthy, bne_iff_ne, ne_eq]
  intro he
  subst he
  rw [strStartsWith, List.isPrefixOf_iff_prefix] at h
  have hlen : pre.data.length ≤ ("" : String).data.length := h.length_le
  simp only [List.length_nil] at hlen
  exact hpre (List.eq_nil_of_length_eq_zero (Nat.le_zero.mp hlen))

/-! ## Inversion lemmas for the evaluators -/

theorem analyzeConfig_inv {d : Doc} {now : Nat} {r : AnalysisResult}
    (h : analyzeConfig d now = .ok r) :
    ∃ p4 p5 p6, cfgPrivKeyPart d = .ok p4 ∧ cfgBaseUrlPart d = .ok p5 ∧ cfgApi401Part d = .ok p6 ∧
      r = { issues := (cfgOrgPart d ++ cfgWalletPart d ++ cfgPubKeyPart d ++ p4 ++ p5 ++ p6).map Prod.fst,
            suggestions := (cfgOrgPart d ++ cfgWalletPart d ++ cfgPubKeyPart d ++ p4 ++ p5 ++ p6).map Prod.snd } := by
  unfold analyzeConfig at h
  cases h4 : cfgPrivKeyPart d <;> rw [h4] at h
  · cases h
  cases h5 : cfgBaseUrlPart d <;> rw [h5] at h
  · cases h
  cases h6 : cfgApi401Part d <;> rw [h6] at h
  · cases h
  exact ⟨_, _, _, rfl, rfl, rfl, (Except.ok.injEq _ _ ▸ h).symm⟩

theorem analyzeSimplifiedPolicy_inv {d : Doc} {r : AnalysisResult}
    (h : analyzeSimplifiedPolicy d = .ok r) :
    ∃ p3, simpCondPart d = .ok p3 ∧
      r = { issues := (simpNamePart d ++ simpEffectPart d ++ p3).map Prod.fst,
            suggestions := (simpNamePart d ++ simpEffectPart d ++ p3).map Prod.snd ++
              (if (simpNamePart d ++ simpEffectPart d ++ p3).isEmpty then [simpInfoSugg d] else []) } := by
  unfold analyzeSimplifiedPolicy at h
  cases h3 : simpCondPart d <;> rw [h3] at h
  · cases h
  exact ⟨_, rfl, (Except.ok.injEq _ _ ▸ h).symm⟩

theorem analyzePolicy_struct_inv {d : Doc} {now : Nat} {r : AnalysisResult}
    (hs : isSimplifiedShape d = false) (h : analyzePolicy d now = .ok r) :
    ∃ p2 p3 p4, polKeysPart d = .ok p2 ∧ polActsPart d = .ok p3 ∧ polIntentPart d = .ok p4 ∧
      r = { issues := (polApprovalsPart d ++ p2 ++ p3 ++ p4).map Prod.fst,
            suggestions := (polApprovalsPart d ++ p2 ++ p3 ++ p4).map Prod.snd } := by
  unfold analyzePolicy at h
  rw [hs] at h
  simp only [Bool.false_eq_true, if_false] at h
  cases h2 : polKeysPart d <;> rw [h2] at h
  · cases h
  cases h3 : polActsPart d <;> rw [h3] at h
  · cases h
  cases h4 : polIntentPart d <;> rw [h4] at h
  · cases h
  exact ⟨_, _, _, rfl, rfl, rfl, (Except.ok.injEq _ _ ▸ h).symm⟩

theorem analyzeTransaction_inv {d : Doc} {now : Nat} {r : AnalysisResult}
    (h : analyzeTransaction d now = .ok r) :
    ∃ p4, txParamsPart d = .ok p4 ∧
      r = { issues := (txOrgPart d ++ txTypePart d ++ txTsPart d now ++ p4).map Prod.fst,
            suggestions := (txOrgPart d ++ txTypePart d ++ txTsPart d now ++ p4).map Prod.snd ++
              (if (txOrgPart d ++ txTypePart d ++ txTsPart d now ++ p4).isEmpty then
                [txNextStepsSugg] else []) } := by
  unfold analyzeTransaction at h
  cases h4 : txParamsPart d <;> rw [h4] at h
  · cases h
  exact ⟨_, rfl, (Except.ok.injEq _ _ ▸ h).symm⟩

/-! ## Claim C3: classification order -/

/-- C3: for every parsed JSON document, classification is first-match-wins:
`transaction` when the `type` field equals "ACTIVITY_TYPE_SIGN_TRANSACTION_V2";
otherwise `policy` when `required_approvals`, or `signing_keys`, or all of
policyName/effect/condition are present; otherwise `config`.  The classifier
of checkConfig coincides with the decision procedure of the spec on every
document. -/
theorem classify_follows_spec_order (d : Doc) : classify d = classifySpec d := by
  have hiff : ((lookupField d "type").isSome &&
      jsStrEqOpt (lookupField d "type") "ACTIVITY_TYPE_SIGN_TRANSACTION_V2") = true ↔
      lookupField d "type" = some (Json.str "ACTIVITY_TYPE_SIGN_TRANSACTION_V2") := by
    cases ho : lookupField d "type" with
    | none => simp [jsStrEqOpt]
    | some v => cases v <;> simp [jsStrEqOpt]
  unfold classify classifySpec
  by_cases h : lookupField d "type" = some (Json.str "ACTIVITY_TYPE_SIGN_TRANSACTION_V2")
  · rw [if_pos (hiff.mpr h), if_pos h]
  · rw [if_neg (fun hb => h (hiff.mp hb)), if_neg h]
    by_cases h2 : (lookupField d "required_approvals").isSome = true ∨
        (lookupField d "signing_keys").isSome = true ∨
        ((lookupField d "policyName").isSome = true ∧ (lookupField d "effect").isSome = true ∧
          (lookupField d "condition").isSome = true)
    · rw [if_pos (by simp only [Bool.or_eq_true, Bool.and_eq_true]; tauto), if_pos (by tauto)]
    · rw [if_neg (by simp only [Bool.or_eq_true, Bool.and_eq_true]; tauto), if_neg (by tauto)]

/-! ## Per-check inventories: what each part of an evaluator can emit -/

theorem cfgOrgPart_mem {d : Doc} {p : String × String} (h : p ∈ cfgOrgPart d) :
    p = (cfgOrgIssue, cfgOrgSugg) := by
  unfold cfgOrgPart at h
  split at h <;> simp_all

theorem cfgWalletPart_mem {d : Doc} {p : String × String} (h : p ∈ cfgWalletPart d) :
    p = (cfgWalletIssue, cfgWalletSugg) := by
  unfold cfgWalletPart at h
  split at h <;> simp_all

theorem cfgPubKeyPart_mem {d : Doc} {p : String × String} (h : p ∈ cfgPubKeyPart d) :
    p = (cfgPubIssue, cfgPubSugg) := by
  unfold cfgPubKeyPart at h
  split at h <;> simp_all

theorem cfgPrivKeyPart_mem {d : Doc} {fs : Findings} {p : String × String}
    (h : cfgPrivKeyPart d = .ok fs) (hp : p ∈ fs) :
    p = (cfgPrivMissIssue, cfgPrivMissSugg) ∨ p = (cfgPrivShortIssue, cfgPrivShortSugg) := by
  unfold cfgPrivKeyPart at h
  repeat' split at h
  all_goals (try exact Except.noConfusion h)
  all_goals (injection h with h2; rw [← h2] at hp; simp at hp; try tauto)

theorem cfgBaseUrlPart_mem {d : Doc} {fs : Findings} {p : String × String}
    (h : cfgBaseUrlPart d = .ok fs) (hp : p ∈ fs) :
    p = (cfgBaseMissIssue, cfgBaseMissSugg) ∨
      ∃ s, p = (cfgBaseHttpsIssue, cfgBaseHttpsSugg s) := by
  unfold cfgBaseUrlPart at h
  repeat' split at h
  all_goals (try exact Except.noConfusion h)
  all_goals (injection h with h2; rw [← h2] at hp; simp at hp; try tauto)

theorem cfgApi401Part_mem {d : Doc} {fs : Findings} {p : String × String}
    (h : cfgApi401Part d = .ok fs) (hp : p ∈ fs) : p = (cfg401Issue, cfg401Sugg) := by
  unfold cfgApi401Part at h
  repeat' split at h
  all_goals (try exact Except.noConfusion h)
  all_goals (injection h with h2; rw [← h2] at hp; simp at hp; try tauto)

theorem polApprovalsPart_mem {d : Doc} {p : String × String} (h : p ∈ polApprovalsPart d) :
    p = (polApprMissIssue, polApprMissSugg) ∨ p = (polApprLowIssue, polApprLowSugg) := by
  unfold polApprovalsPart at h
  repeat' split at h
  all_goals (simp at h; try tauto)

theorem polKeyEntry_mem {i : Nat} {k : Json} {fs : Findings} {p : String × String}
    (h : polKeyEntry i k = .ok fs) (hp : p ∈ fs) :
    p = (polKeyIdIssue i, polKeyIdSugg i) ∨ p = (polKeyPubIssue i, polKeyPubSugg i) := by
  unfold polKeyEntry at h
  repeat' split at h
  all_goals (try exact Except.noConfusion h)
  all_goals (injection h with h2; rw [← h2] at hp; simp at hp; try tauto)

theorem polKeysLoop_mem : ∀ (xs : List Json) (i : Nat) (fs : Findings) (p : String × String),
    polKeysLoop xs i = .ok fs → p ∈ fs →
    ∃ j, p = (polKeyIdIssue j, polKeyIdSugg j) ∨ p = (polKeyPubIssue j, polKeyPubSugg j)
  | [], i, fs, p, h, hp => by
    injection h with h2
    rw [← h2] at hp
    simp at hp
  | k :: rest, i, fs, p, h, hp => by
    unfold polKeysLoop at h
    cases he : polKeyEntry i k with
    | error e => rw [he] at h; exact Except.noConfusion h
    | ok f =>
      rw [he] at h
      cases hl : polKeysLoop rest (i + 1) with
      | error e => rw [hl] at h; exact Except.noConfusion h
      | ok rr =>
        rw [hl] at h
        injection h with h2
        rw [← h2] at hp
        rcases List.mem_append.mp hp with hx | hx
        · exact ⟨i, polKeyEntry_mem he hx⟩
        · exact polKeysLoop_mem rest (i + 1) rr p hl hx

theorem polKeysPart_mem {d : Doc} {fs : Findings} {p : String × String}
    (h : polKeysPart d = .ok fs) (hp : p ∈ fs) :
    p = (polNoKeysIssue, polNoKeysSugg) ∨
      ∃ j, p = (polKeyIdIssue j, polKeyIdSugg j) ∨ p = (polKeyPubIssue j, polKeyPubSugg j) := by
  unfold polKeysPart at h
  repeat' split at h
  all_goals (try exact Except.noConfusion h)
  all_goals (first
    | (injection h with h2; rw [← h2] at hp; simp at hp; tauto)
    | (exact Or.inr (polKeysLoop_mem _ _ _ _ h hp)))

theorem polCondChecks_mem {c : Json} {i : Nat} {fs : Findings} {p : String × String}
    (h : polCondChecks c i = .ok fs) (hp : p ∈ fs) :
    p = (polCondPlaceholderIssue i, polCondPlaceholderSugg) ∨
      p = (polCondQuantIssue i, polCondQuantSugg) := by
  unfold polCondChecks at h
  repeat' split at h
  all_goals (try exact Except.noConfusion h)
  all_goals (injection h with h2; rw [← h2] at hp; simp at hp; try tauto)

theorem polActTypeCheck_mem {i : Nat} {a : Json} {p : String × String}
    (h : p ∈ polActTypeCheck i a) : p = (polActTypeIssue i, polActTypeSugg i) := by
  unfold polActTypeCheck at h
  split at h <;> simp_all

theorem polActResCheck_mem {i : Nat} {a : Json} {p : String × String}
    (h : p ∈ polActResCheck i a) : p = (polActResIssue i, polActResSugg i) := by
  unfold polActResCheck at h
  split at h <;> simp_all

theorem polActEntry_mem {i : Nat} {a : Json} {fs : Findings} {p : String × String}
    (h : polActEntry i a = .ok fs) (hp : p ∈ fs) :
    p = (polActTypeIssue i, polActTypeSugg i) ∨ p = (polActResIssue i, polActResSugg i) ∨
      p = (polCondPlaceholderIssue i, polCondPlaceholderSugg) ∨
      p = (polCondQuantIssue i, polCondQuantSugg) := by
  unfold polActEntry at h
  repeat' split at h
  all_goals (try exact Except.noConfusion h)
  all_goals injection h with h2
  all_goals rw [← h2] at hp
  all_goals (rcases List.mem_append.mp hp with hx | hx)
  all_goals (try rcases List.mem_append.mp hx with hy | hy)
  all_goals (try exact Or.inl (polActTypeCheck_mem hx))
  all_goals (try exact Or.inl (polActTypeCheck_mem hy))
  all_goals (try exact Or.inr (Or.inl (polActResCheck_mem hx)))
  all_goals (try exact Or.inr (Or.inl (polActResCheck_mem hy)))
  exact Or.inr (Or.inr (polCondChecks_mem (by assumption) hx))

theorem polActsLoop_mem : ∀ (xs : List Json) (i : Nat) (fs : Findings) (p : String × String),
    polActsLoop xs i = .ok fs → p ∈ fs →
    ∃ j, p = (polActTypeIssue j, polActTypeSugg j) ∨ p = (polActResIssue j, polActResSugg j) ∨
      p = (polCondPlaceholderIssue j, polCondPlaceholderSugg) ∨
      p = (polCondQuantIssue j, polCondQuantSugg)
  | [], i, fs, p, h, hp => by
    injection h with h2
    rw [← h2] at hp
    simp at hp
  | a :: rest, i, fs, p, h, hp => by
    unfold polActsLoop at h
    cases he : polActEntry i a with
    | error e => rw [he] at h; exact Except.noConfusion h
    | ok f =>
      rw [he] at h
      cases hl : polActsLoop rest (i + 1) with
      | error e => rw [hl] at h; exact Except.noConfusion h
      | ok rr =>
        rw [hl] at h
        injection h with h2
        rw [← h2] at hp
        rcases List.mem_append.mp hp with hx | hx
        · exact ⟨i, polActEntry_mem he hx⟩
        · exact polActsLoop_mem rest (i + 1) rr p hl hx

theorem polActsPart_mem {d : Doc} {fs : Findings} {p : String × String}
    (h : polActsPart d = .ok fs) (hp : p ∈ fs) :
    p = (polNoActIssue, polNoActSugg) ∨
      ∃ j, p = (polActTypeIssue j, polActTypeSugg j) ∨ p = (polActResIssue j, polActResSugg j) ∨
        p = (polCondPlaceholderIssue j, polCondPlaceholderSugg) ∨
        p = (polCondQuantIssue j, polCondQuantSugg) := by
  unfold polActsPart at h
  repeat' split at h
  all_goals (try exact Except.noConfusion h)
  all_goals (first
    | (injection h with h2; rw [← h2] at hp; simp at hp; tauto)
    | (exact Or.inr (polActsLoop_mem _ _ _ _ h hp)))

theorem polIntentPart_mem {d : Doc} {fs : Findings} {p : String × String}
    (h : polIntentPart d = .ok fs) (hp : p ∈ fs) :
    p = (polIntentParamsIssue, polIntentParamsSugg) ∨
      p = (polIntentActionIssue, polIntentActionSugg) := by
  unfold polIntentPart at h
  repeat' split at h
  all_goals (try exact Except.noConfusion h)
  all_goals (injection h with h2; rw [← h2] at hp; simp at hp; try tauto)

theorem simpNamePart_mem {d : Doc} {p : String × String} (h : p ∈ simpNamePart d) :
    p = (simpNameIssue, simpNameSugg) := by
  unfold simpNamePart at h
  split at h <;> simp_all

theorem simpEffectPart_mem {d : Doc} {p : String × String} (h : p ∈ simpEffectPart d) :
    p = (simpEffMissIssue, simpEffMissSugg) ∨
      ∃ v, p = (simpEffInvalidIssue v, simpEffInvalidSugg) := by
  unfold simpEffectPart at h
  repeat' split at h
  all_goals (simp at h; try tauto)

theorem simpCondPart_mem {d : Doc} {fs : Findings} {p : String × String}
    (h : simpCondPart d = .ok fs) (hp : p ∈ fs) :
    p = (simpCondMissIssue, simpCondMissSugg) ∨
      p = (simpCondPlaceholderIssue, simpCondPlaceholderSugg) ∨
      p = (simpCondQuantIssue, simpCondQuantSugg) := by
  unfold simpCondPart at h
  repeat' split at h
  all_goals (try exact Except.noConfusion h)
  all_goals (injection h with h2; rw [← h2] at hp; simp at hp; try tauto)

theorem txOrgPart_mem {d : Doc} {p : String × String} (h : p ∈ txOrgPart d) :
    p = (txOrgIssue, txOrgSugg) := by
  unfold txOrgPart at h
  split at h <;> simp_all

theorem txTypePart_mem {d : Doc} {p : String × String} (h : p ∈ txTypePart d) :
    p = (txTypeMissIssue, txTypeMissSugg) ∨ ∃ v, p = (txTypeUnsIssue v, txTypeUnsSugg) := by
  unfold txTypePart at h
  repeat' split at h
  all_goals (simp at h; try tauto)

theorem txTsPart_mem {d : Doc} {now : Nat} {p : String × String} (h : p ∈ txTsPart d now) :
    p = (txTsIssue, txTsSugg now) := by
  unfold txTsPart at h
  split at h <;> simp_all

theorem txPTypePart_mem {q : Json} {p : String × String} (h : p ∈ txPTypePart q) :
    p = (txPTypeMissIssue, txPTypeMissSugg) ∨ ∃ v, p = (txPTypeUnsIssue v, txPTypeUnsSugg) := by
  unfold txPTypePart at h
  repeat' split at h
  all_goals (simp at h; try tauto)

theorem txSignWithPart_mem {q : Json} {fs : Findings} {p : String × String}
    (h : txSignWithPart q = .ok fs) (hp : p ∈ fs) :
    p = (txSignWithIssue, txSignWithSugg) ∨ p = (txEthAddrIssue, txEthAddrSugg) := by
  unfold txSignWithPart at h
  repeat' split at h
  all_goals (try exact Except.noConfusion h)
  all_goals (injection h with h2; rw [← h2] at hp; simp at hp; try tauto)

theorem txUnsignedPart_mem {q : Json} {p : String × String} (h : p ∈ txUnsignedPart q) :
    p = (txUnsTxMissIssue, txUnsTxMissSugg) ∨ p = (txHexIssue, txHexSugg) := by
  unfold txUnsignedPart at h
  repeat' split at h
  all_goals (simp at h; try tauto)

theorem txParamsPart_mem {d : Doc} {fs : Findings} {p : String × String}
    (h : txParamsPart d = .ok fs) (hp : p ∈ fs) :
    p = (txParamsIssue, txParamsSugg) ∨ p = (txPTypeMissIssue, txPTypeMissSugg) ∨
      (∃ v, p = (txPTypeUnsIssue v, txPTypeUnsSugg)) ∨ p = (txSignWithIssue, txSignWithSugg) ∨
      p = (txEthAddrIssue, txEthAddrSugg) ∨ p = (txUnsTxMissIssue, txUnsTxMissSugg) ∨
      p = (txHexIssue, txHexSugg) := by
  unfold txParamsPart at h
  repeat' split at h
  all_goals (try exact Except.noConfusion h)
  all_goals injection h with h2
  all_goals rw [← h2] at hp
  all_goals (try (simp at hp; tauto))
  rcases List.mem_append.mp hp with hx | hx
  · rcases List.mem_append.mp hx with hy | hy
    · rcases txPTypePart_mem hy with h3 | ⟨v, h3⟩
      · subst h3; tauto
      · subst h3; exact Or.inr (Or.inr (Or.inl ⟨v, rfl⟩))
    · rcases txSignWithPart_mem (by assumption) hy with h3 | h3 <;> (subst h3; tauto)
  · rcases txUnsignedPart_mem hx with h3 | h3 <;> (subst h3; tauto)

/-- Every issue analyzeConfig can report is one of its eight fixed issue
strings. -/
theorem analyzeConfig_issue_shapes {d : Doc} {now : Nat} {r : AnalysisResult} {s : String}
    (h : analyzeConfig d now = .ok r) (hs : s ∈ r.issues) :
    s ∈ [cfgOrgIssue, cfgWalletIssue, cfgPubIssue, cfgPrivMissIssue, cfgPrivShortIssue,
      cfgBaseMissIssue, cfgBaseHttpsIssue, cfg401Issue] := by
  obtain ⟨p4, p5, p6, h4, h5, h6, rfl⟩ := analyzeConfig_inv h
  simp only [List.map_append, List.mem_append, List.mem_map] at hs
  rcases hs with ((((⟨p, hp, rfl⟩ | ⟨p, hp, rfl⟩) | ⟨p, hp, rfl⟩) | ⟨p, hp, rfl⟩) | ⟨p, hp, rfl⟩) | ⟨p, hp, rfl⟩
  · rw [cfgOrgPart_mem hp]; simp
  · rw [cfgWalletPart_mem hp]; simp
  · rw [cfgPubKeyPart_mem hp]; simp
  · rcases cfgPrivKeyPart_mem h4 hp with rfl | rfl <;> simp
  · rcases cfgBaseUrlPart_mem h5 hp with rfl | ⟨u, rfl⟩ <;> simp
  · rw [cfgApi401Part_mem h6 hp]; simp

/-- Every issue of the simplified-policy path. -/
theorem analyzeSimplifiedPolicy_issue_shapes {d : Doc} {r : AnalysisResult} {s : String}
    (h : analyzeSimplifiedPolicy d = .ok r) (hs : s ∈ r.issues) :
    s ∈ [simpNameIssue, simpEffMissIssue, simpCondMissIssue, simpCondPlaceholderIssue,
      simpCondQuantIssue] ∨ ∃ v, s = simpEffInvalidIssue v := by
  obtain ⟨p3, h3, rfl⟩ := analyzeSimplifiedPolicy_inv h
  simp only [List.map_append, List.mem_append, List.mem_map] at hs
  rcases hs with (⟨p, hp, rfl⟩ | ⟨p, hp, rfl⟩) | ⟨p, hp, rfl⟩
  · rw [simpNamePart_mem hp]; simp
  · rcases simpEffectPart_mem hp with rfl | ⟨v, rfl⟩
    · simp
    · exact Or.inr ⟨v, rfl⟩
  · rcases simpCondPart_mem h3 hp with rfl | rfl | rfl <;> simp

/-- Every suggestion of the simplified-policy path. -/
theorem analyzeSimplifiedPolicy_sugg_shapes {d : Doc} {r : AnalysisResult} {s : String}
    (h : analyzeSimplifiedPolicy d = .ok r) (hs : s ∈ r.suggestions) :
    s ∈ [simpNameSugg, simpEffMissSugg, simpEffInvalidSugg, simpCondMissSugg,
      simpCondPlaceholderSugg, simpCondQuantSugg] ∨ s = simpInfoSugg d := by
  obtain ⟨p3, h3, rfl⟩ := analyzeSimplifiedPolicy_inv h
  simp only [List.mem_append] at hs
  rcases hs with hs | hs
  · simp only [List.map_append, List.mem_append, List.mem_map] at hs
    rcases hs with (⟨p, hp, rfl⟩ | ⟨p, hp, rfl⟩) | ⟨p, hp, rfl⟩
    · rw [simpNamePart_mem hp]; simp
    · rcases simpEffectPart_mem hp with rfl | ⟨v, rfl⟩ <;> simp
    · rcases simpCondPart_mem h3 hp with rfl | rfl | rfl <;> simp
  · split at hs <;> simp_all

/-- analyzePolicy dispatches the simplified shape to
analyzeSimplifiedPolicy. -/
theorem analyzePolicy_simp_dispatch {d : Doc} {now : Nat} (h : isSimplifiedShape d = true) :
    analyzePolicy d now = analyzeSimplifiedPolicy d := by
  unfold analyzePolicy
  rw [h]
  simp

/-- Every issue analyzePolicy can report, over both policy shapes. -/
theorem analyzePolicy_issue_shapes {d : Doc} {now : Nat} {r : AnalysisResult} {s : String}
    (h : analyzePolicy d now = .ok r) (hs : s ∈ r.issues) :
    s ∈ [polApprMissIssue, polApprLowIssue, polNoKeysIssue, polNoActIssue, polIntentParamsIssue,
      polIntentActionIssue, simpNameIssue, simpEffMissIssue, simpCondMissIssue,
      simpCondPlaceholderIssue, simpCondQuantIssue] ∨
    (∃ j, s = polKeyIdIssue j ∨ s = polKeyPubIssue j ∨ s = polActTypeIssue j ∨
      s = polActResIssue j ∨ s = polCondPlaceholderIssue j ∨ s = polCondQuantIssue j) ∨
    ∃ v, s = simpEffInvalidIssue v := by
  cases hsimp : isSimplifiedShape d with
  | true =>
    rw [analyzePolicy_simp_dispatch hsimp] at h
    rcases analyzeSimplifiedPolicy_issue_shapes h hs with hc | hv
    · simp only [List.mem_cons, List.mem_singleton] at hc
      simp only [List.mem_cons, List.mem_singleton]
      tauto
    · exact Or.inr (Or.inr hv)
  | false =>
    obtain ⟨p2, p3, p4, h2, h3, h4, rfl⟩ := analyzePolicy_struct_inv hsimp h
    simp only [List.map_append, List.mem_append, List.mem_map] at hs
    rcases hs with ((⟨p, hp, rfl⟩ | ⟨p, hp, rfl⟩) | ⟨p, hp, rfl⟩) | ⟨p, hp, rfl⟩
    · rcases polApprovalsPart_mem hp with rfl | rfl <;> simp
    · rcases polKeysPart_mem h2 hp with rfl | ⟨j, hj | hj⟩
      · simp
      all_goals (subst hj; exact Or.inr (Or.inl ⟨j, by tauto⟩))
    · rcases polActsPart_mem h3 hp with rfl | ⟨j, hj | hj | hj | hj⟩
      · simp
      all_goals (subst hj; exact Or.inr (Or.inl ⟨j, by tauto⟩))
    · rcases polIntentPart_mem h4 hp with rfl | rfl <;> simp

/-- Every issue analyzeTransaction can report. -/
theorem analyzeTransaction_issue_shapes {d : Doc} {now : Nat} {r : AnalysisResult} {s : String}
    (h : analyzeTransaction d now = .ok r) (hs : s ∈ r.issues) :
    s ∈ [txOrgIssue, txTypeMissIssue, txTsIssue, txParamsIssue, txPTypeMissIssue,
      txSignWithIssue, txEthAddrIssue, txUnsTxMissIssue, txHexIssue] ∨
    ∃ v, s = txTypeUnsIssue v ∨ s = txPTypeUnsIssue v := by
  obtain ⟨p4, h4, rfl⟩ := analyzeTransaction_inv h
  simp only [List.map_append, List.mem_append, List.mem_map] at hs
  rcases hs with ((⟨p, hp, rfl⟩ | ⟨p, hp, rfl⟩) | ⟨p, hp, rfl⟩) | ⟨p, hp, rfl⟩
  · rw [txOrgPart_mem hp]; simp
  · rcases txTypePart_mem hp with rfl | ⟨v, rfl⟩
    · simp
    · exact Or.inr ⟨v, Or.inl rfl⟩
  · rw [txTsPart_mem hp]; simp
  · rcases txParamsPart_mem h4 hp with rfl | rfl | ⟨v, rfl⟩ | rfl | rfl | rfl | rfl
    · simp
    · simp
    · exact Or.inr ⟨v, Or.inr rfl⟩
    all_goals simp

/-- If checkConfig classifies a document as a transaction, its `type` field
is the sentinel string. -/
theorem classify_transaction_inv {d : Doc} (h : classify d = .transaction) :
    lookupField d "type" = some (Json.str "ACTIVITY_TYPE_SIGN_TRANSACTION_V2") := by
  unfold classify at h
  by_cases h1 : ((lookupField d "type").isSome &&
      jsStrEqOpt (lookupField d "type") "ACTIVITY_TYPE_SIGN_TRANSACTION_V2") = true
  · cases ho : lookupField d "type" with
    | none => rw [ho] at h1; simp [jsStrEqOpt] at h1
    | some v =>
      rw [ho] at h1
      cases v <;> simp [jsStrEqOpt] at h1
      rw [h1]
  · rw [if_neg h1] at h
    split at h <;> exact FileType.noConfusion h

/-- With the sentinel type present, the type check of analyzeTransaction
emits nothing: neither branch of the mutually exclusive pair can fire. -/
theorem txTypePart_sentinel {d : Doc}
    (h : lookupField d "type" = some (Json.str "ACTIVITY_TYPE_SIGN_TRANSACTION_V2")) :
    txTypePart d = [] := by
  unfold txTypePart
  rw [h]
  decide

/-! ## Claim C10: the pipeline never reports "Unsupported transaction type" -/

/-- C10: in the composed pipeline, the `Unsupported transaction type: ...`
issue of analyzeTransaction is unreachable: analyzeTransaction only runs on
documents whose type equals the sentinel, for which the branch cannot fire,
and no other evaluator produces an issue of that shape. -/
theorem pipeline_never_unsupported_type (d : Doc) (now : Nat) (s : String)
    (hs : s ∈ okIssues (runCheck d now)) : ¬ unsupportedTxTypeIssue s := by
  rintro ⟨t, ht⟩
  unfold runCheck at hs
  cases hcl : classify d <;> rw [hcl] at hs
  · -- transaction: the type part is empty, the rest never has this shape
    cases hr : analyzeTransaction d now with
    | error e => rw [hr] at hs; simp [okIssues] at hs
    | ok r =>
      rw [hr] at hs
      simp only [okIssues] at hs
      obtain ⟨p4, h4, rfl⟩ := analyzeTransaction_inv hr
      rw [txTypePart_sentinel (classify_transaction_inv hcl)] at hs
      simp only [List.append_nil, List.map_append, List.mem_append, List.mem_map] at hs
      rcases hs with (⟨p, hp, rfl⟩ | ⟨p, hp, rfl⟩) | ⟨p, hp, rfl⟩
      · obtain rfl := txOrgPart_mem hp
        dsimp only at ht
        exact ne_of_unshared_head (by decide) t ht
      · obtain rfl := txTsPart_mem hp
        dsimp only at ht
        exact ne_of_unshared_head (by decide) t ht
      · rcases txParamsPart_mem h4 hp with rfl | rfl | ⟨v, rfl⟩ | rfl | rfl | rfl | rfl
        all_goals dsimp only at ht
        · exact ne_of_unshared_head (by decide) t ht
        · exact ne_of_unshared_head (by decide) t ht
        · exact ne_append_of_unshared_head (by decide) (by decide) (jsToString v) t ht
        all_goals exact ne_of_unshared_head (by decide) t ht
  · -- policy: no issue of either shape matches the prefix
    cases hr : analyzePolicy d now with
    | error e => rw [hr] at hs; simp [okIssues] at hs
    | ok r =>
      rw [hr] at hs
      simp only [okIssues] at hs
      rcases analyzePolicy_issue_shapes hr hs with hc | ⟨j, hj⟩ | ⟨v, hv⟩
      · simp at hc
        rcases hc with rfl | rfl | rfl | rfl | rfl | rfl | rfl | rfl | rfl | rfl | rfl
        all_goals exact ne_of_unshared_head (by decide) t ht
      · rcases hj with rfl | rfl | rfl | rfl | rfl | rfl
        all_goals (simp only [polKeyIdIssue, polKeyPubIssue, polActTypeIssue, polActResIssue,
          polCondPlaceholderIssue, polCondQuantIssue] at ht)
        all_goals exact ne_append_of_unshared_head (by decide) (by decide) _ t ht
      · subst hv
        simp only [simpEffInvalidIssue] at ht
        exact ne_append_of_unshared_head (by decide) (by decide) _ t ht
  · -- config: the eight issues are fixed strings
    cases hr : analyzeConfig d now with
    | error e => rw [hr] at hs; simp [okIssues] at hs
    | ok r =>
      rw [hr] at hs
      simp only [okIssues] at hs
      have hc := analyzeConfig_issue_shapes hr hs
      simp at hc
      rcases hc with rfl | rfl | rfl | rfl | rfl | rfl | rfl | rfl
      all_goals exact ne_of_unshared_head (by decide) t ht

/-- Witness for C10 at a concrete classified transaction document. -/
theorem pipeline_never_unsupported_type_witness :
    ¬ unsupportedTxTypeIssue "Missing parameters object" :=
  pipeline_never_unsupported_type noParamsTxDoc 0 "Missing parameters object" (by decide)

/-! ## Claim C5: a fully valid config yields no findings -/

/-- C5: when org_id and wallet_id are non-empty strings, api_public_key is a
string containing "TK" of length at least 10, api_private_key is a string of
length at least 20, and base_url is a string starting with `https://`,
analyzeConfig returns empty issues and empty suggestions. -/
theorem valid_config_no_findings (d : Doc) (now : Nat) (o w pub priv url : String)
    (ho : lookupField d "org_id" = some (Json.str o)) (ho2 : o ≠ "")
    (hw : lookupField d "wallet_id" = some (Json.str w)) (hw2 : w ≠ "")
    (hpub : lookupField d "api_public_key" = some (Json.str pub))
    (hpub2 : strContains pub "TK" = true) (hpub3 : 10 ≤ pub.length)
    (hpriv : lookupField d "api_private_key" = some (Json.str priv)) (hpriv2 : 20 ≤ priv.length)
    (hurl : lookupField d "base_url" = some (Json.str url))
    (hurl2 : strStartsWith url "https://" = true) :
    analyzeConfig d now = .ok ⟨[], []⟩ := by
  have hto : truthy (Json.str o) = true := by simp [truthy, ho2]
  have htw : truthy (Json.str w) = true := by simp [truthy, hw2]
  have htpub : truthy (Json.str pub) = true := truthy_str_of_len 9 (by omega)
  have htpriv : truthy (Json.str priv) = true := truthy_str_of_len 19 (by omega)
  have hturl : truthy (Json.str url) = true := truthy_str_of_startsWith (by decide) hurl2
  have hlpriv : jsLtLen (Json.str priv) 20 = false := by
    simp [jsLtLen, jsLen, propGet, jsLtInt, toNumber, decide_eq_false_iff_not]
    omega
  have hlpub : jsLtLen (Json.str pub) 10 = false := by
    simp [jsLtLen, jsLen, propGet, jsLtInt, toNumber, decide_eq_false_iff_not]
    omega
  have h1 : cfgOrgPart d = [] := by simp [cfgOrgPart, ho, truthyOpt, hto]
  have h2 : cfgWalletPart d = [] := by simp [cfgWalletPart, hw, truthyOpt, htw]
  have h3 : cfgPubKeyPart d = [] := by simp [cfgPubKeyPart, hpub, truthyOpt, htpub]
  have h4 : cfgPrivKeyPart d = .ok [] := by
    simp [cfgPrivKeyPart, hpriv, htpriv, hlpriv]
  have h5 : cfgBaseUrlPart d = .ok [] := by
    simp [cfgBaseUrlPart, hurl, hturl, hurl2]
  have h6 : cfgApi401Part d = .ok [] := by
    simp [cfgApi401Part, hpub, hpriv, htpub, htpriv, jsIncludes, jsIncludesB, hpub2, hlpub]
  unfold analyzeConfig
  rw [h4, h5, h6]
  simp [h1, h2, h3]

/-- Witness for C5 at a concrete fully valid config. -/
theorem valid_config_no_findings_witness : analyzeConfig validConfigDoc 7 = .ok ⟨[], []⟩ :=
  valid_config_no_findings validConfigDoc 7 "o" "w" "TK12345678" "12345678901234567890"
    "https://api.turnkey.com" (by decide) (by decide) (by decide) (by decide) (by decide)
    (by decide) (by decide) (by decide) (by decide) (by decide) (by decide)

/-! ## Claim C8: suggestions align with issues -/

/-- C8: every evaluator builds its result from a list of (issue, suggestion)
pairs pushed together by the same check, so suggestions are at least as many
as issues and exactly as many whenever some issue exists; only the zero-issue
runs of analyzeTransaction and of the simplified-policy path append one extra
informational suggestion. -/
theorem suggestions_align_with_issues (d : Doc) (now : Nat) :
    (∀ r, analyzeConfig d now = .ok r →
      ∃ ps : Findings, r.issues = ps.map Prod.fst ∧ r.suggestions = ps.map Prod.snd) ∧
    (∀ r, analyzePolicy d now = .ok r →
      ∃ (ps : Findings) (extra : List String), r.issues = ps.map Prod.fst ∧
        r.suggestions = ps.map Prod.snd ++ extra ∧
        (r.issues ≠ [] → extra = []) ∧
        (r.issues = [] → extra.length = (if isSimplifiedShape d then 1 else 0))) ∧
    (∀ r, analyzeTransaction d now = .ok r →
      ∃ (ps : Findings) (extra : List String), r.issues = ps.map Prod.fst ∧
        r.suggestions = ps.map Prod.snd ++ extra ∧
        (r.issues ≠ [] → extra = []) ∧ (r.issues = [] → extra.length = 1)) := by
  refine ⟨?_, ?_, ?_⟩
  · intro r hr
    obtain ⟨p4, p5, p6, h4, h5, h6, rfl⟩ := analyzeConfig_inv hr
    exact ⟨_, rfl, rfl⟩
  · intro r hr
    cases hsimp : isSimplifiedShape d with
    | true =>
      rw [analyzePolicy_simp_dispatch hsimp] at hr
      obtain ⟨p3, h3, rfl⟩ := analyzeSimplifiedPolicy_inv hr
      refine ⟨simpNamePart d ++ simpEffectPart d ++ p3,
        (if (simpNamePart d ++ simpEffectPart d ++ p3).isEmpty then [simpInfoSugg d] else []),
        rfl, rfl, ?_, ?_⟩
      · intro hne
        rw [ne_eq, List.map_eq_nil_iff] at hne
        cases hfs : (simpNamePart d ++ simpEffectPart d ++ p3) with
        | nil => exact absurd hfs hne
        | cons a l => simp
      · intro he
        rw [List.map_eq_nil_iff] at he
        rw [he]
        simp [hsimp]
    | false =>
      obtain ⟨p2, p3, p4, h2, h3, h4, rfl⟩ := analyzePolicy_struct_inv hsimp hr
      exact ⟨_, [], rfl, by simp, fun _ => rfl, fun _ => by simp [hsimp]⟩
  · intro r hr
    obtain ⟨p4, h4, rfl⟩ := analyzeTransaction_inv hr
    refine ⟨txOrgPart d ++ txTypePart d ++ txTsPart d now ++ p4,
      (if (txOrgPart d ++ txTypePart d ++ txTsPart d now ++ p4).isEmpty then
        [txNextStepsSugg] else []), rfl, rfl, ?_, ?_⟩
    · intro hne
      rw [ne_eq, List.map_eq_nil_iff] at hne
      cases hfs : (txOrgPart d ++ txTypePart d ++ txTsPart d now ++ p4) with
      | nil => exact absurd hfs hne
      | cons a l => simp
    · intro he
      rw [List.map_eq_nil_iff] at he
      rw [he]
      simp

/-- Witness for C8 on a valid config: empty issues pair with empty
suggestions. -/
theorem suggestions_align_with_issues_witness :
    ∃ ps : Findings, (AnalysisResult.mk [] []).issues = ps.map Prod.fst ∧
      (AnalysisResult.mk [] []).suggestions = ps.map Prod.snd :=
  (suggestions_align_with_issues validConfigDoc 7).1 ⟨[], []⟩ (by decide)

/-! ## Claim C9: empty-string fields are reported as missing -/

/-- C9: presence checks test truthiness, so a present-but-empty string is
reported as missing: an empty org_id yields the missing-org issue, and an
empty simplified-policy effect yields the missing-effect issue and never the
invalid-effect issue; only required_approvals is compared against undefined,
so the value 0 is treated as present and trips the at-least-1 check rather
than the missing check. -/
theorem falsy_fields_report_missing (d : Doc) (now : Nat) :
    (lookupField d "org_id" = some (Json.str "") →
      ∀ r, analyzeConfig d now = .ok r → cfgOrgIssue ∈ r.issues) ∧
    (isSimplifiedShape d = true → lookupField d "effect" = some (Json.str "") →
      ∀ r, analyzePolicy d now = .ok r →
        simpEffMissIssue ∈ r.issues ∧ ∀ v, simpEffInvalidIssue v ∉ r.issues) ∧
    (isSimplifiedShape d = false → lookupField d "required_approvals" = some (Json.num 0) →
      ∀ r, analyzePolicy d now = .ok r →
        polApprLowIssue ∈ r.issues ∧ polApprMissIssue ∉ r.issues) := by
  refine ⟨?_, ?_, ?_⟩
  · intro ho r hr
    obtain ⟨p4, p5, p6, h4, h5, h6, rfl⟩ := analyzeConfig_inv hr
    have h1 : cfgOrgPart d = [(cfgOrgIssue, cfgOrgSugg)] := by
      simp [cfgOrgPart, ho, truthyOpt, truthy]
    simp [h1]
  · intro hsimp heff r hr
    rw [analyzePolicy_simp_dispatch hsimp] at hr
    obtain ⟨p3, h3, rfl⟩ := analyzeSimplifiedPolicy_inv hr
    have h2 : simpEffectPart d = [(simpEffMissIssue, simpEffMissSugg)] := by
      simp [simpEffectPart, heff, truthy]
    constructor
    · simp [h2]
    · intro v hmem
      simp only [h2, List.map_append, List.mem_append, List.mem_map] at hmem
      rcases hmem with (⟨p, hp, hpe⟩ | ⟨p, hp, hpe⟩) | ⟨p, hp, hpe⟩
      · rw [simpNamePart_mem hp] at hpe
        dsimp only at hpe
        rw [simpEffInvalidIssue] at hpe
        exact ne_of_unshared_head (by decide) (jsToString v) hpe
      · simp only [List.mem_singleton] at hp
        rw [hp] at hpe
        dsimp only at hpe
        rw [simpEffInvalidIssue] at hpe
        exact ne_of_unshared_head (by decide) (jsToString v) hpe
      · rcases simpCondPart_mem h3 hp with rfl | rfl | rfl
        all_goals dsimp only at hpe
        all_goals rw [simpEffInvalidIssue] at hpe
        all_goals exact ne_of_unshared_head (by decide) (jsToString v) hpe
  · intro hsimp happr r hr
    obtain ⟨p2, p3, p4, h2, h3, h4, rfl⟩ := analyzePolicy_struct_inv hsimp hr
    have h1 : polApprovalsPart d = [(polApprLowIssue, polApprLowSugg)] := by
      simp [polApprovalsPart, happr, jsLtInt, toNumber]
    constructor
    · simp [h1]
    · intro hmem
      simp only [h1, List.map_append, List.mem_append, List.mem_map] at hmem
      rcases hmem with ((⟨p, hp, hpe⟩ | ⟨p, hp, hpe⟩) | ⟨p, hp, hpe⟩) | ⟨p, hp, hpe⟩
      · simp only [List.mem_singleton] at hp
        rw [hp] at hpe
        exact absurd hpe (by decide)
      · rcases polKeysPart_mem h2 hp with rfl | ⟨j, rfl | rfl⟩
        · exact absurd hpe (by decide)
        all_goals dsimp only at hpe
        all_goals simp only [polKeyIdIssue, polKeyPubIssue] at hpe
        all_goals exact ne_of_unshared_head (by decide) _ hpe.symm
      · rcases polActsPart_mem h3 hp with rfl | ⟨j, rfl | rfl | rfl | rfl⟩
        · exact absurd hpe (by decide)
        all_goals dsimp only at hpe
        all_goals simp only [polActTypeIssue, polActResIssue, polCondPlaceholderIssue,
          polCondQuantIssue] at hpe
        all_goals exact ne_of_unshared_head (by decide) _ hpe.symm
      · rcases polIntentPart_mem h4 hp with rfl | rfl
        all_goals exact absurd hpe (by decide)

/-- Witness for C9 at three concrete documents: empty org_id, empty
simplified effect, and required_approvals = 0. -/
theorem falsy_fields_report_missing_witness :
    cfgOrgIssue ∈ (AnalysisResult.mk [cfgOrgIssue] [cfgOrgSugg]).issues ∧
    simpEffMissIssue ∈ (AnalysisResult.mk [simpEffMissIssue] [simpEffMissSugg]).issues ∧
    simpEffInvalidIssue (Json.str "") ∉
      (AnalysisResult.mk [simpEffMissIssue] [simpEffMissSugg]).issues ∧
    polApprLowIssue ∈ (AnalysisResult.mk [polApprLowIssue] [polApprLowSugg]).issues ∧
    polApprMissIssue ∉ (AnalysisResult.mk [polApprLowIssue] [polApprLowSugg]).issues := by
  refine ⟨?_, ?_, ?_, ?_, ?_⟩
  · exact (falsy_fields_report_missing emptyOrgDoc 0).1 (by decide) _ (by decide)
  · exact ((falsy_fields_report_missing emptyEffectDoc 0).2.1 (by decide) (by decide)
      _ (by decide)).1
  · exact ((falsy_fields_report_missing emptyEffectDoc 0).2.1 (by decide) (by decide)
      _ (by decide)).2 (Json.str "")
  · exact ((falsy_fields_report_missing zeroApprovalsDoc 0).2.2 (by decide) rfl
      _ (by decide)).1
  · exact ((falsy_fields_report_missing zeroApprovalsDoc 0).2.2 (by decide) rfl
      _ (by decide)).2

/-! ## Claim C7: a falsy parameters object short-circuits the sub-checks -/

theorem isEmpty_append_singleton {α : Type} (l : List α) (x : α) :
    (l ++ [x]).isEmpty = false := by
  cases h : l ++ [x] with
  | nil => exact absurd h (by simp)
  | cons a t => rfl

/-- C7: for every transaction document whose `parameters` is falsy, the
evaluator reports exactly one `Missing parameters object` issue and none of
the sub-field checks run: no type/signWith/unsignedTransaction issue or
suggestion appears. -/
theorem missing_parameters_skips_subchecks (d : Doc) (now : Nat)
    (hpar : truthyOpt (lookupField d "parameters") = false) :
    ∀ r, analyzeTransaction d now = .ok r →
      r.issues.count txParamsIssue = 1 ∧
      (∀ s ∈ [txPTypeMissIssue, txSignWithIssue, txEthAddrIssue, txUnsTxMissIssue, txHexIssue],
        s ∉ r.issues) ∧
      (∀ v : Json, txPTypeUnsIssue v ∉ r.issues) ∧
      (∀ s ∈ [txPTypeMissSugg, txPTypeUnsSugg, txSignWithSugg, txEthAddrSugg, txUnsTxMissSugg,
        txHexSugg], s ∉ r.suggestions) := by
  intro r hr
  have hpp : txParamsPart d = .ok [(txParamsIssue, txParamsSugg)] := by
    unfold txParamsPart
    cases hl : lookupField d "parameters" with
    | none => rfl
    | some p =>
      rw [hl] at hpar
      simp only [truthyOpt] at hpar
      simp [hpar]
  obtain ⟨p4, h4, rfl⟩ := analyzeTransaction_inv hr
  have hp4 : p4 = [(txParamsIssue, txParamsSugg)] := by
    injection hpp.symm.trans h4 with h2
    exact h2.symm
  subst hp4
  have hne : (txOrgPart d ++ txTypePart d ++ txTsPart d now ++
      [(txParamsIssue, txParamsSugg)]).isEmpty = false := isEmpty_append_singleton _ _
  have hIss : ∀ s, s ∈ (txOrgPart d ++ txTypePart d ++ txTsPart d now ++
      [(txParamsIssue, txParamsSugg)]).map Prod.fst →
      s = txOrgIssue ∨ s = txTypeMissIssue ∨ (∃ v, s = txTypeUnsIssue v) ∨ s = txTsIssue ∨
        s = txParamsIssue := by
    intro s hs
    simp only [List.map_append, List.mem_append, List.mem_map] at hs
    rcases hs with ((⟨p, hp, rfl⟩ | ⟨p, hp, rfl⟩) | ⟨p, hp, rfl⟩) | ⟨p, hp, rfl⟩
    · obtain rfl := txOrgPart_mem hp
      exact Or.inl rfl
    · rcases txTypePart_mem hp with rfl | ⟨v, rfl⟩
      · exact Or.inr (Or.inl rfl)
      · exact Or.inr (Or.inr (Or.inl ⟨v, rfl⟩))
    · obtain rfl := txTsPart_mem hp
      exact Or.inr (Or.inr (Or.inr (Or.inl rfl)))
    · simp only [List.mem_singleton] at hp
      subst hp
      exact Or.inr (Or.inr (Or.inr (Or.inr rfl)))
  have hSug : ∀ s, s ∈ (txOrgPart d ++ txTypePart d ++ txTsPart d now ++
      [(txParamsIssue, txParamsSugg)]).map Prod.snd →
      s = txOrgSugg ∨ s = txTypeMissSugg ∨ s = txTypeUnsSugg ∨ s = txTsSugg now ∨
        s = txParamsSugg := by
    intro s hs
    simp only [List.map_append, List.mem_append, List.mem_map] at hs
    rcases hs with ((⟨p, hp, rfl⟩ | ⟨p, hp, rfl⟩) | ⟨p, hp, rfl⟩) | ⟨p, hp, rfl⟩
    · obtain rfl := txOrgPart_mem hp
      exact Or.inl rfl
    · rcases txTypePart_mem hp with rfl | ⟨v, rfl⟩
      · exact Or.inr (Or.inl rfl)
      · exact Or.inr (Or.inr (Or.inl rfl))
    · obtain rfl := txTsPart_mem hp
      exact Or.inr (Or.inr (Or.inr (Or.inl rfl)))
    · simp only [List.mem_singleton] at hp
      subst hp
      exact Or.inr (Or.inr (Or.inr (Or.inr rfl)))
  refine ⟨?_, ?_, ?_, ?_⟩
  · have c1 : ((txOrgPart d).map Prod.fst).count txParamsIssue = 0 := by
      rw [List.count_eq_zero]
      intro hmem
      simp only [List.mem_map] at hmem
      obtain ⟨p, hp, hpe⟩ := hmem
      obtain rfl := txOrgPart_mem hp
      exact absurd hpe (by decide)
    have c2 : ((txTypePart d).map Prod.fst).count txParamsIssue = 0 := by
      rw [List.count_eq_zero]
      intro hmem
      simp only [List.mem_map] at hmem
      obtain ⟨p, hp, hpe⟩ := hmem
      rcases txTypePart_mem hp with rfl | ⟨v, rfl⟩
      · exact absurd hpe (by decide)
      · dsimp only at hpe
        simp only [txTypeUnsIssue] at hpe
        exact ne_of_unshared_head (by decide) _ hpe.symm
    have c3 : ((txTsPart d now).map Prod.fst).count txParamsIssue = 0 := by
      rw [List.count_eq_zero]
      intro hmem
      simp only [List.mem_map] at hmem
      obtain ⟨p, hp, hpe⟩ := hmem
      obtain rfl := txTsPart_mem hp
      dsimp only at hpe
      exact absurd hpe (by decide)
    simp only [List.map_append, List.count_append, c1, c2, c3]
    decide
  · intro s hsl hmem
    simp only at hmem
    rcases hIss _ hmem with h | h | ⟨v, h⟩ | h | h
    all_goals try (fin_cases hsl <;> exact absurd h (by decide))
    all_goals fin_cases hsl
    all_goals simp only [txTypeUnsIssue] at h
    all_goals exact ne_of_unshared_head (by decide) _ h
  · intro v hmem
    simp only at hmem
    rcases hIss _ hmem with h | h | ⟨w, h⟩ | h | h
    all_goals simp only [txPTypeUnsIssue, txTypeUnsIssue] at h
    all_goals try exact ne_append_of_unshared_head (by decide) (by decide) _ _ h
    all_goals exact ne_of_unshared_head (by decide) _ h.symm
  · intro s hsl hmem
    simp only [hne, Bool.false_eq_true, if_false, List.append_nil] at hmem
    rcases hSug _ hmem with h | h | h | h | h
    all_goals try (fin_cases hsl <;> exact absurd h (by decide))
    all_goals fin_cases hsl
    all_goals simp only [txTsSugg] at h
    all_goals exact ne_of_unshared_head (by decide) _ h

/-- Witness for C7 at a transaction document without parameters. -/
theorem missing_parameters_skips_subchecks_witness :
    (AnalysisResult.mk [txParamsIssue] [txParamsSugg]).issues.count txParamsIssue = 1 ∧
    txPTypeMissIssue ∉ (AnalysisResult.mk [txParamsIssue] [txParamsSugg]).issues ∧
    txPTypeUnsIssue Json.null ∉ (AnalysisResult.mk [txParamsIssue] [txParamsSugg]).issues ∧
    txSignWithSugg ∉ (AnalysisResult.mk [txParamsIssue] [txParamsSugg]).suggestions := by
  have h := missing_parameters_skips_subchecks noParamsTxDoc 0 (by decide)
    ⟨[txParamsIssue], [txParamsSugg]⟩ (by decide)
  exact ⟨h.1, h.2.1 _ (by simp), h.2.2.1 Json.null, h.2.2.2 _ (by simp)⟩

/-! ## Claim C4: the simplified shape bypasses every structured rule -/

/-- No simplified-path issue string coincides with any structured-path issue
string. -/
theorem simp_issue_ne_struct {s : String}
    (h : s ∈ [simpNameIssue, simpEffMissIssue, simpCondMissIssue, simpCondPlaceholderIssue,
      simpCondQuantIssue] ∨ ∃ v, s = simpEffInvalidIssue v) :
    (∀ c ∈ [polApprMissIssue, polApprLowIssue, polNoKeysIssue, polNoActIssue,
      polIntentParamsIssue, polIntentActionIssue], s ≠ c) ∧
    ∀ j : Nat, s ≠ polKeyIdIssue j ∧ s ≠ polKeyPubIssue j ∧ s ≠ polActTypeIssue j ∧
      s ≠ polActResIssue j ∧ s ≠ polCondPlaceholderIssue j ∧ s ≠ polCondQuantIssue j := by
  rcases h with hc | ⟨v, rfl⟩
  · constructor
    · intro c hcl
      fin_cases hc <;> fin_cases hcl <;> decide
    · intro j
      fin_cases hc
      all_goals refine ⟨?_, ?_, ?_, ?_, ?_, ?_⟩
      all_goals simp only [polKeyIdIssue, polKeyPubIssue, polActTypeIssue, polActResIssue,
        polCondPlaceholderIssue, polCondQuantIssue]
      all_goals exact ne_of_unshared_head (by decide) _
  · constructor
    · intro c hcl
      simp only [simpEffInvalidIssue]
      fin_cases hcl
      all_goals exact fun he => ne_of_unshared_head (by decide) _ he.symm
    · intro j
      simp only [simpEffInvalidIssue, polKeyIdIssue, polKeyPubIssue, polActTypeIssue,
        polActResIssue, polCondPlaceholderIssue, polCondQuantIssue]
      refine ⟨?_, ?_, ?_, ?_, ?_, ?_⟩
      all_goals exact ne_append_of_unshared_head (by decide) (by decide) _ _

/-- No simplified-path suggestion string coincides with any structured-path
suggestion string. -/
theorem simp_sugg_ne_struct {d : Doc} {s : String}
    (h : s ∈ [simpNameSugg, simpEffMissSugg, simpEffInvalidSugg, simpCondMissSugg,
      simpCondPlaceholderSugg, simpCondQuantSugg] ∨ s = simpInfoSugg d) :
    (∀ c ∈ [polApprMissSugg, polApprLowSugg, polNoKeysSugg, polNoActSugg, polIntentParamsSugg,
      polIntentActionSugg, polCondPlaceholderSugg, polCondQuantSugg], s ≠ c) ∧
    ∀ j : Nat, s ≠ polKeyIdSugg j ∧ s ≠ polKeyPubSugg j ∧ s ≠ polActTypeSugg j ∧
      s ≠ polActResSugg j := by
  rcases h with hc | rfl
  · constructor
    · intro c hcl
      fin_cases hc <;> fin_cases hcl <;> decide
    · intro j
      fin_cases hc
      all_goals refine ⟨?_, ?_, ?_, ?_⟩
      all_goals simp only [polKeyIdSugg, polKeyPubSugg, polActTypeSugg, polActResSugg]
      all_goals exact ne_of_unshared_head (by decide) _
  · constructor
    · intro c hcl
      simp only [simpInfoSugg]
      fin_cases hcl
      all_goals exact fun he => ne_of_unshared_head (by decide) _ he.symm
    · intro j
      simp only [simpInfoSugg, polKeyIdSugg, polKeyPubSugg, polActTypeSugg, polActResSugg]
      refine ⟨?_, ?_, ?_, ?_⟩
      all_goals exact ne_append_of_unshared_head (by decide) (by decide) _ _

/-- C4: when policyName, effect and condition are all present, analyzePolicy
is exactly the simplified-variant analysis, and no structured-variant check
(required_approvals, signing_keys, allowed_activities, SIGN_WITH_INTENT)
contributes any issue or suggestion. -/
theorem simplified_policy_skips_structured (d : Doc) (now : Nat)
    (hs : isSimplifiedShape d = true) :
    analyzePolicy d now = analyzeSimplifiedPolicy d ∧
    ∀ r, analyzePolicy d now = .ok r →
      (∀ c ∈ [polApprMissIssue, polApprLowIssue, polNoKeysIssue, polNoActIssue,
        polIntentParamsIssue, polIntentActionIssue], c ∉ r.issues) ∧
      (∀ j : Nat, polKeyIdIssue j ∉ r.issues ∧ polKeyPubIssue j ∉ r.issues ∧
        polActTypeIssue j ∉ r.issues ∧ polActResIssue j ∉ r.issues ∧
        polCondPlaceholderIssue j ∉ r.issues ∧ polCondQuantIssue j ∉ r.issues) ∧
      (∀ c ∈ [polApprMissSugg, polApprLowSugg, polNoKeysSugg, polNoActSugg, polIntentParamsSugg,
        polIntentActionSugg, polCondPlaceholderSugg, polCondQuantSugg], c ∉ r.suggestions) ∧
      (∀ j : Nat, polKeyIdSugg j ∉ r.suggestions ∧ polKeyPubSugg j ∉ r.suggestions ∧
        polActTypeSugg j ∉ r.suggestions ∧ polActResSugg j ∉ r.suggestions) := by
  have hd : analyzePolicy d now = analyzeSimplifiedPolicy d := analyzePolicy_simp_dispatch hs
  refine ⟨hd, fun r hr => ?_⟩
  rw [hd] at hr
  refine ⟨?_, ?_, ?_, ?_⟩
  · intro c hcl hmem
    exact ((simp_issue_ne_struct (analyzeSimplifiedPolicy_issue_shapes hr hmem)).1 c hcl) rfl
  · intro j
    refine ⟨fun hm => ?_, fun hm => ?_, fun hm => ?_, fun hm => ?_, fun hm => ?_, fun hm => ?_⟩
    · exact ((simp_issue_ne_struct (analyzeSimplifiedPolicy_issue_shapes hr hm)).2 j).1 rfl
    · exact ((simp_issue_ne_struct (analyzeSimplifiedPolicy_issue_shapes hr hm)).2 j).2.1 rfl
    · exact ((simp_issue_ne_struct (analyzeSimplifiedPolicy_issue_shapes hr hm)).2 j).2.2.1 rfl
    · exact ((simp_issue_ne_struct (analyzeSimplifiedPolicy_issue_shapes hr hm)).2 j).2.2.2.1 rfl
    · exact ((simp_issue_ne_struct (analyzeSimplifiedPolicy_issue_shapes hr hm)).2 j).2.2.2.2.1 rfl
    · exact ((simp_issue_ne_struct (analyzeSimplifiedPolicy_issue_shapes hr hm)).2 j).2.2.2.2.2 rfl
  · intro c hcl hmem
    exact ((simp_sugg_ne_struct (analyzeSimplifiedPolicy_sugg_shapes hr hmem)).1 c hcl) rfl
  · intro j
    refine ⟨fun hm => ?_, fun hm => ?_, fun hm => ?_, fun hm => ?_⟩
    · exact ((simp_sugg_ne_struct (analyzeSimplifiedPolicy_sugg_shapes hr hm)).2 j).1 rfl
    · exact ((simp_sugg_ne_struct (analyzeSimplifiedPolicy_sugg_shapes hr hm)).2 j).2.1 rfl
    · exact ((simp_sugg_ne_struct (analyzeSimplifiedPolicy_sugg_shapes hr hm)).2 j).2.2.1 rfl
    · exact ((simp_sugg_ne_struct (analyzeSimplifiedPolicy_sugg_shapes hr hm)).2 j).2.2.2 rfl

/-- Witness for C4 at a simplified policy that is structurally broken (no
approvals, keys or activities), which still trips no structured rule. -/
theorem simplified_policy_skips_structured_witness :
    analyzePolicy simplifiedOnlyDoc 0 = analyzeSimplifiedPolicy simplifiedOnlyDoc ∧
    polApprMissIssue ∉ (AnalysisResult.mk [] [simpInfoSugg simplifiedOnlyDoc]).issues ∧
    polNoKeysSugg ∉ (AnalysisResult.mk [] [simpInfoSugg simplifiedOnlyDoc]).suggestions := by
  have h := simplified_policy_skips_structured simplifiedOnlyDoc 0 (by decide)
  refine ⟨h.1, ?_, ?_⟩
  · exact (h.2 ⟨[], [simpInfoSugg simplifiedOnlyDoc]⟩ (by decide)).1 _ (by simp)
  · exact (h.2 ⟨[], [simpInfoSugg simplifiedOnlyDoc]⟩ (by decide)).2.2.1 _ (by simp)

/-! ## Claim C6: only the first matching activity gets the intent checks -/

/-- A value with a `type` property is an object, hence truthy. -/
theorem truthy_of_propGet_type {m v : Json} (h : propGet m "type" = some v) :
    truthy m = true := by
  cases m with
  | obj fs => rfl
  | str s => rw [propGet, if_neg (by decide)] at h; exact Option.noConfusion h
  | arr xs => rw [propGet, if_neg (by decide)] at h; exact Option.noConfusion h
  | null => exact Option.noConfusion h
  | bool b => exact Option.noConfusion h
  | num n => exact Option.noConfusion h

/-- C6: the SIGN_WITH_INTENT parameter checks look only at the first entry
(in list order) whose type is SIGN_WITH_INTENT or SIGN_TRANSACTION.  When
the type of that entry is exactly SIGN_WITH_INTENT, falsy parameters yield the
missing-parameters issue and present parameters without intent_action yield
the missing-intent_action issue; when the first match is well formed (or is
a SIGN_TRANSACTION entry), this rule reports nothing — later matching
entries, malformed or not, are never consulted. -/
theorem first_match_intent_check (d : Doc) (now : Nat) (xs : List Json) (m : Json)
    (hns : isSimplifiedShape d = false)
    (hact : lookupField d "allowed_activities" = some (Json.arr xs))
    (hfind : polFindLoop xs = .ok (some m)) :
    (propGet m "type" = some (Json.str "SIGN_WITH_INTENT") →
      (truthyOpt (propGet m "parameters") = false →
        polIntentPart d = .ok [(polIntentParamsIssue, polIntentParamsSugg)]) ∧
      (∀ p, propGet m "parameters" = some p → truthy p = true →
        truthyOpt (propGet p "intent_action") = false →
          polIntentPart d = .ok [(polIntentActionIssue, polIntentActionSugg)])) ∧
    ((propGet m "type" = some (Json.str "SIGN_TRANSACTION") ∨
      (propGet m "type" = some (Json.str "SIGN_WITH_INTENT") ∧
        ∃ p, propGet m "parameters" = some p ∧ truthy p = true ∧
          truthyOpt (propGet p "intent_action") = true)) →
      polIntentPart d = .ok [] ∧
      ∀ r, analyzePolicy d now = .ok r →
        polIntentParamsIssue ∉ r.issues ∧ polIntentActionIssue ∉ r.issues) := by
  have hfa : polFindIntent (lookupField d "allowed_activities") = .ok (some m) := by
    rw [hact]
    exact hfind
  constructor
  · intro htype
    have hm := truthy_of_propGet_type htype
    have hje : jsStrEqOpt (propGet m "type") "SIGN_WITH_INTENT" = true := by
      rw [htype]
      decide
    constructor
    · intro hpar
      unfold polIntentPart
      rw [hfa]
      cases hpp : propGet m "parameters" with
      | none => simp [hm, hje, hpp]
      | some p =>
        rw [hpp] at hpar
        simp only [truthyOpt] at hpar
        simp [hm, hje, hpp, hpar]
    · intro p hpp htp hia
      unfold polIntentPart
      rw [hfa]
      simp [hm, hje, hpp, htp, hia]
  · intro hwf
    have hip : polIntentPart d = .ok [] := by
      rcases hwf with htype | ⟨htype, p, hpp, htp, hia⟩
      · have hm := truthy_of_propGet_type htype
        have hje : jsStrEqOpt (propGet m "type") "SIGN_WITH_INTENT" = false := by
          rw [htype]
          decide
        unfold polIntentPart
        rw [hfa]
        simp [hm, hje]
      · have hm := truthy_of_propGet_type htype
        have hje : jsStrEqOpt (propGet m "type") "SIGN_WITH_INTENT" = true := by
          rw [htype]
          decide
        unfold polIntentPart
        rw [hfa]
        simp [hm, hje, hpp, htp, hia]
    refine ⟨hip, fun r hr => ?_⟩
    obtain ⟨p2, p3, p4, h2, h3, h4, rfl⟩ := analyzePolicy_struct_inv hns hr
    have hp4 : p4 = [] := by
      injection hip.symm.trans h4 with h2x
      exact h2x.symm
    subst hp4
    constructor
    · intro hmem
      simp only [List.append_nil, List.map_append, List.mem_append, List.mem_map] at hmem
      rcases hmem with (⟨p, hp, hpe⟩ | ⟨p, hp, hpe⟩) | ⟨p, hp, hpe⟩
      · rcases polApprovalsPart_mem hp with rfl | rfl <;> exact absurd hpe (by decide)
      · rcases polKeysPart_mem h2 hp with rfl | ⟨j, rfl | rfl⟩
        · exact absurd hpe (by decide)
        all_goals dsimp only at hpe
        all_goals simp only [polKeyIdIssue, polKeyPubIssue] at hpe
        all_goals exact ne_of_unshared_head (by decide) _ hpe.symm
      · rcases polActsPart_mem h3 hp with rfl | ⟨j, rfl | rfl | rfl | rfl⟩
        · exact absurd hpe (by decide)
        all_goals dsimp only at hpe
        all_goals simp only [polActTypeIssue, polActResIssue, polCondPlaceholderIssue,
          polCondQuantIssue] at hpe
        all_goals exact ne_of_unshared_head (by decide) _ hpe.symm
    · intro hmem
      simp only [List.append_nil, List.map_append, List.mem_append, List.mem_map] at hmem
      rcases hmem with (⟨p, hp, hpe⟩ | ⟨p, hp, hpe⟩) | ⟨p, hp, hpe⟩
      · rcases polApprovalsPart_mem hp with rfl | rfl <;> exact absurd hpe (by decide)
      · rcases polKeysPart_mem h2 hp with rfl | ⟨j, rfl | rfl⟩
        · exact absurd hpe (by decide)
        all_goals dsimp only at hpe
        all_goals simp only [polKeyIdIssue, polKeyPubIssue] at hpe
        all_goals exact ne_of_unshared_head (by decide) _ hpe.symm
      · rcases polActsPart_mem h3 hp with rfl | ⟨j, rfl | rfl | rfl | rfl⟩
        · exact absurd hpe (by decide)
        all_goals dsimp only at hpe
        all_goals simp only [polActTypeIssue, polActResIssue, polCondPlaceholderIssue,
          polCondQuantIssue] at hpe
        all_goals exact ne_of_unshared_head (by decide) _ hpe.symm

/-- Witness for C6: the first matching entry is well formed, a later
SIGN_WITH_INTENT entry lacks parameters, and no intent issue is reported. -/
theorem first_match_intent_check_witness :
    polIntentPart laterIntentDoc = .ok [] ∧
    polIntentParamsIssue ∉ (AnalysisResult.mk [] []).issues := by
  have h := (first_match_intent_check laterIntentDoc 0 laterIntentActs laterIntentFirst
    (by decide) rfl rfl).2 (Or.inr ⟨rfl,
      Json.obj [("intent_action", Json.str "a")], rfl, by decide, by decide⟩)
  exact ⟨h.1, (h.2 ⟨[], []⟩ (by decide)).1⟩

/-! ## Claim C1: determinism of the evaluators -/

/-- Counterexample to C1 as stated: two invocations of analyzeTransaction on
the same (unmutated) empty document at different wall-clock instants return
different suggestion lists, because the timestampMs suggestion embeds
`Date.now()`. -/
theorem transaction_suggestions_time_dependent :
    okSuggs (analyzeTransaction [] 0) ≠ okSuggs (analyzeTransaction [] 1) := by decide

/-- C1 amended: analyzeConfig and analyzePolicy are deterministic functions
of the document alone; the issue list of analyzeTransaction is too, and its full
result whenever timestampMs is truthy — only the timestampMs-missing
suggestion embeds the clock. -/
theorem evaluators_time_independent_except_timestamp (d : Doc) (t1 t2 : Nat) :
    analyzeConfig d t1 = analyzeConfig d t2 ∧
    analyzePolicy d t1 = analyzePolicy d t2 ∧
    (analyzeTransaction d t1).map AnalysisResult.issues =
      (analyzeTransaction d t2).map AnalysisResult.issues ∧
    (truthyOpt (lookupField d "timestampMs") = true →
      analyzeTransaction d t1 = analyzeTransaction d t2) := by
  refine ⟨rfl, rfl, ?_, ?_⟩
  · cases h4 : txParamsPart d with
    | error e =>
      unfold analyzeTransaction
      rw [h4]
    | ok p4 =>
      unfold analyzeTransaction
      rw [h4]
      by_cases hc : truthyOpt (lookupField d "timestampMs") = true
      · simp [txTsPart, hc, Except.map]
      · simp [txTsPart, hc, Except.map]
  · intro hts
    cases h4 : txParamsPart d with
    | error e =>
      unfold analyzeTransaction
      rw [h4]
    | ok p4 =>
      unfold analyzeTransaction
      rw [h4]
      simp [txTsPart, hts]

/-- Witness for the amended C1: with timestampMs present, two invocations at
different instants agree exactly. -/
theorem evaluators_time_independent_witness :
    analyzeTransaction noParamsTxDoc 0 = analyzeTransaction noParamsTxDoc 1 :=
  (evaluators_time_independent_except_timestamp noParamsTxDoc 0 1).2.2.2 (by decide)

/-! ## Claim C2: evaluators and exceptions -/

/-- Counterexample to C2 as stated: a present but numeric base_url makes
`base_url.startsWith` throw a TypeError inside analyzeConfig. -/
theorem config_number_base_url_throws :
    analyzeConfig badBaseUrlDoc 0 = .error "TypeError" := by decide

theorem cfgPrivKeyPart_ok {d : Doc} (h : strOrAbsent (lookupField d "api_private_key")) :
    ∃ fs, cfgPrivKeyPart d = .ok fs := by
  unfold cfgPrivKeyPart
  cases hl : lookupField d "api_private_key" with
  | none => exact ⟨_, rfl⟩
  | some v =>
    obtain ⟨s, rfl⟩ := h v hl
    dsimp only
    by_cases h1 : truthy (Json.str s) = true
    · by_cases h2 : jsLtLen (Json.str s) 20 = true
      · rw [if_pos h1, if_pos h2]
        exact ⟨_, rfl⟩
      · rw [if_pos h1, if_neg h2]
        exact ⟨_, rfl⟩
    · rw [if_neg h1]
      exact ⟨_, rfl⟩

theorem cfgBaseUrlPart_ok {d : Doc} (h : strOrAbsent (lookupField d "base_url")) :
    ∃ fs, cfgBaseUrlPart d = .ok fs := by
  unfold cfgBaseUrlPart
  cases hl : lookupField d "base_url" with
  | none => exact ⟨_, rfl⟩
  | some v =>
    obtain ⟨s, rfl⟩ := h v hl
    dsimp only
    by_cases h1 : truthy (Json.str s) = true
    · rw [if_pos h1]
      exact ⟨_, rfl⟩
    · rw [if_neg h1]
      exact ⟨_, rfl⟩

theorem cfgApi401Part_ok {d : Doc} (h : strOrAbsent (lookupField d "api_public_key")) :
    ∃ fs, cfgApi401Part d = .ok fs := by
  unfold cfgApi401Part
  cases hl1 : lookupField d "api_public_key" with
  | none => exact ⟨_, rfl⟩
  | some pub =>
    cases hl2 : lookupField d "api_private_key" with
    | none => exact ⟨_, rfl⟩
    | some priv =>
      obtain ⟨s, rfl⟩ := h pub hl1
      dsimp only
      by_cases h1 : (truthy (Json.str s) && truthy priv) = true
      · rw [if_pos h1]
        exact ⟨_, rfl⟩
      · rw [if_neg h1]
        exact ⟨_, rfl⟩

theorem polKeysLoop_ok : ∀ (xs : List Json) (i : Nat),
    (∀ k ∈ xs, ∃ fs, k = Json.obj fs) → ∃ out, polKeysLoop xs i = .ok out
  | [], i, h => ⟨[], rfl⟩
  | k :: rest, i, h => by
    obtain ⟨fs, rfl⟩ := h k (by simp)
    obtain ⟨out, ho⟩ := polKeysLoop_ok rest (i + 1) (fun a ha => h a (by simp [ha]))
    unfold polKeysLoop
    rw [ho]
    exact ⟨_, rfl⟩

theorem polKeysPart_ok {d : Doc} (h : keysFieldWT (lookupField d "signing_keys")) :
    ∃ fs, polKeysPart d = .ok fs := by
  unfold polKeysPart
  cases hl : lookupField d "signing_keys" with
  | none => exact ⟨_, rfl⟩
  | some v =>
    dsimp only
    by_cases hc : (!truthy v || jsLenEq v 0) = true
    · rw [if_pos hc]
      exact ⟨_, rfl⟩
    · have htv : truthy v = true := by
        cases htv : truthy v with
        | true => rfl
        | false => exact absurd (by rw [htv]; rfl) hc
      obtain ⟨xs, rfl, hall⟩ := h v hl htv
      rw [if_neg hc]
      exact polKeysLoop_ok xs 0 hall

theorem polCondChecks_ok (c : Json) (i : Nat)
    (h : (∃ s, c = Json.str s) ∨ ∃ xs, c = Json.arr xs) :
    ∃ fs, polCondChecks c i = .ok fs := by
  rcases h with ⟨s, rfl⟩ | ⟨xs, rfl⟩ <;> exact ⟨_, rfl⟩

theorem polActEntry_ok (i : Nat) (a : Json) (h : activityWT a) :
    ∃ fs, polActEntry i a = .ok fs := by
  obtain ⟨⟨fs, rfl⟩, hp⟩ := h
  unfold polActEntry
  dsimp only
  cases hpp : propGet (Json.obj fs) "parameters" with
  | none => exact ⟨_, rfl⟩
  | some p =>
    dsimp only
    by_cases htp : truthy p = true
    · rw [if_pos htp]
      cases hpc : propGet p "condition" with
      | none => exact ⟨_, rfl⟩
      | some c =>
        dsimp only
        by_cases htc : truthy c = true
        · rw [if_pos htc]
          obtain ⟨f3, h3⟩ := polCondChecks_ok c i (hp p hpp htp c hpc htc)
          rw [h3]
          exact ⟨_, rfl⟩
        · rw [if_neg htc]
          exact ⟨_, rfl⟩
    · rw [if_neg htp]
      exact ⟨_, rfl⟩

theorem polActsLoop_ok : ∀ (xs : List Json) (i : Nat),
    (∀ a ∈ xs, activityWT a) → ∃ out, polActsLoop xs i = .ok out
  | [], i, h => ⟨[], rfl⟩
  | a :: rest, i, h => by
    obtain ⟨f, hf⟩ := polActEntry_ok i a (h a (by simp))
    obtain ⟨out, ho⟩ := polActsLoop_ok rest (i + 1) (fun b hb => h b (by simp [hb]))
    unfold polActsLoop
    rw [hf, ho]
    exact ⟨_, rfl⟩

theorem polActsPart_ok {d : Doc} (h : activitiesFieldWT (lookupField d "allowed_activities")) :
    ∃ fs, polActsPart d = .ok fs := by
  unfold polActsPart
  cases hl : lookupField d "allowed_activities" with
  | none => exact ⟨_, rfl⟩
  | some v =>
    dsimp only
    by_cases hc : (!truthy v || jsLenEq v 0) = true
    · rw [if_pos hc]
      exact ⟨_, rfl⟩
    · rw [if_neg hc]
      rcases h v hl with rfl | ⟨xs, rfl, hall⟩
      · exact absurd (by rfl) hc
      · exact polActsLoop_ok xs 0 (fun a ha => (hall a ha))

theorem polFindLoop_ok : ∀ (xs : List Json),
    (∀ a ∈ xs, ∃ fs, a = Json.obj fs) → ∃ o, polFindLoop xs = .ok o
  | [], h => ⟨none, rfl⟩
  | a :: rest, h => by
    obtain ⟨fs, rfl⟩ := h a (by simp)
    unfold polFindLoop
    dsimp only
    by_cases hc : (jsStrEqOpt (propGet (Json.obj fs) "type") "SIGN_WITH_INTENT" ||
        jsStrEqOpt (propGet (Json.obj fs) "type") "SIGN_TRANSACTION") = true
    · rw [if_pos hc]
      exact ⟨_, rfl⟩
    · rw [if_neg hc]
      exact polFindLoop_ok rest (fun b hb => h b (by simp [hb]))

theorem polIntentPart_ok {d : Doc} (h : activitiesFieldWT (lookupField d "allowed_activities")) :
    ∃ fs, polIntentPart d = .ok fs := by
  unfold polIntentPart
  cases hl : lookupField d "allowed_activities" with
  | none => exact ⟨_, rfl⟩
  | some v =>
    rcases h v hl with rfl | ⟨xs, rfl, hall⟩
    · exact ⟨_, rfl⟩
    · obtain ⟨o, ho⟩ := polFindLoop_ok xs (fun a ha => (hall a ha).1)
      have hfi : polFindIntent (some (Json.arr xs)) = .ok o := ho
      rw [hfi]
      cases o with
      | none => exact ⟨_, rfl⟩
      | some sw =>
        dsimp only
        repeat' split
        all_goals exact ⟨_, rfl⟩

theorem simpCondPart_ok {d : Doc} (h : condValWT (lookupField d "condition")) :
    ∃ fs, simpCondPart d = .ok fs := by
  unfold simpCondPart
  cases hl : lookupField d "condition" with
  | none => exact ⟨_, rfl⟩
  | some c =>
    dsimp only
    by_cases htc : truthy c = true
    · rw [if_pos htc]
      rcases h c hl htc with ⟨s, rfl⟩ | ⟨xs, rfl⟩ <;> exact ⟨_, rfl⟩
    · rw [if_neg htc]
      exact ⟨_, rfl⟩

theorem analyzeSimplifiedPolicy_ok {d : Doc} (h : condValWT (lookupField d "condition")) :
    ∃ r, analyzeSimplifiedPolicy d = .ok r := by
  obtain ⟨p3, h3⟩ := simpCondPart_ok h
  unfold analyzeSimplifiedPolicy
  rw [h3]
  exact ⟨_, rfl⟩

theorem txSignWithPart_ok {p : Json}
    (h : ∀ sw, propGet p "signWith" = some sw → truthy sw = true → ∃ s, sw = Json.str s) :
    ∃ fs, txSignWithPart p = .ok fs := by
  unfold txSignWithPart
  cases hl : propGet p "signWith" with
  | none => exact ⟨_, rfl⟩
  | some sw =>
    dsimp only
    by_cases ht : truthy sw = true
    · rw [if_pos ht]
      by_cases he : jsStrEqOpt (propGet p "type") "TRANSACTION_TYPE_ETHEREUM" = true
      · rw [if_pos he]
        obtain ⟨s, rfl⟩ := h sw hl ht
        exact ⟨_, rfl⟩
      · rw [if_neg he]
        exact ⟨_, rfl⟩
    · rw [if_neg ht]
      exact ⟨_, rfl⟩

theorem txParamsPart_ok {d : Doc} (h : transactionWellTyped d) :
    ∃ fs, txParamsPart d = .ok fs := by
  unfold txParamsPart
  cases hl : lookupField d "parameters" with
  | none => exact ⟨_, rfl⟩
  | some p =>
    dsimp only
    by_cases ht : truthy p = true
    · rw [if_pos ht]
      obtain ⟨f2, h2⟩ := txSignWithPart_ok (h p hl ht)
      rw [h2]
      exact ⟨_, rfl⟩
    · rw [if_neg ht]
      exact ⟨_, rfl⟩

/-- C2 amended: absence of data never raises — it becomes findings — and for
every document whose present fields conform to the declared TypeScript
interfaces (strings where strings are expected, arrays of objects for
signing_keys and allowed_activities, string conditions), no evaluator
throws.  Only wrong-runtime-type present values can raise a TypeError, as in
the counterexample. -/
theorem well_typed_evaluators_never_throw (d : Doc) (now : Nat) :
    (configWellTyped d → ∃ r, analyzeConfig d now = .ok r) ∧
    (policyWellTyped d → ∃ r, analyzePolicy d now = .ok r) ∧
    (transactionWellTyped d → ∃ r, analyzeTransaction d now = .ok r) := by
  refine ⟨?_, ?_, ?_⟩
  · rintro ⟨hpriv, hbase, hpub⟩
    obtain ⟨p4, h4⟩ := cfgPrivKeyPart_ok hpriv
    obtain ⟨p5, h5⟩ := cfgBaseUrlPart_ok hbase
    obtain ⟨p6, h6⟩ := cfgApi401Part_ok hpub
    unfold analyzeConfig
    rw [h4, h5, h6]
    exact ⟨_, rfl⟩
  · rintro ⟨hkeys, hacts, hcond⟩
    cases hs : isSimplifiedShape d with
    | true =>
      obtain ⟨r, hr⟩ := analyzeSimplifiedPolicy_ok hcond
      exact ⟨r, by rw [analyzePolicy_simp_dispatch hs]; exact hr⟩
    | false =>
      obtain ⟨p2, h2⟩ := polKeysPart_ok hkeys
      obtain ⟨p3, h3⟩ := polActsPart_ok hacts
      obtain ⟨p4, h4⟩ := polIntentPart_ok hacts
      unfold analyzePolicy
      rw [hs]
      simp only [Bool.false_eq_true, if_false]
      rw [h2, h3, h4]
      exact ⟨_, rfl⟩
  · intro h
    obtain ⟨p4, h4⟩ := txParamsPart_ok h
    unfold analyzeTransaction
    rw [h4]
    exact ⟨_, rfl⟩

/-- Witness for the amended C2 at the empty document, which is trivially
well typed: all three evaluators complete. -/
theorem well_typed_evaluators_never_throw_witness :
    (∃ r, analyzeConfig [] 0 = .ok r) ∧ (∃ r, analyzePolicy [] 0 = .ok r) ∧
      ∃ r, analyzeTransaction [] 0 = .ok r := by
  have h := well_typed_evaluators_never_throw [] 0
  refine ⟨h.1 ⟨?_, ?_, ?_⟩, h.2.1 ⟨?_, ?_, ?_⟩, h.2.2 ?_⟩
  all_goals intro v hv
  all_goals exact Option.noConfusion hv
